import Mathlib

/-!
# Vita motion-sensor driver (`SDL_vitasensor.c`)

A shallow embedding of `src/third-party/sdl/upstream/sdl3/src/sensor/vita/SDL_vitasensor.c`.

* C `unsigned int` / `Uint32` / `Uint64` values are `Nat`, with the reduction modulo
  `2^32` / `2^64` written out wherever the C arithmetic can wrap.
* C `int` values are `Int`.
* C `float` values are elements of an arbitrary type `F`; the single-precision
  multiplication, the value `0.0f` and the constant `SDL_STANDARD_GRAVITY` are the fields
  of a `FloatOps F`.
* The two file-level statics `SDL_sensors` / `SDL_sensors_count` are the fields of `Driver`.
* Everything the driver consumes from outside (allocation success, the object-id
  generator, the motion facility's statuses and records, the wall clock) is an explicit
  argument.
-/

namespace VitaSensor

/-! ## Constants, types and external facilities -/

/-- The fallback definition at lines 29-31 of the source: `#define SCE_MOTION_MAX_NUM_STATES 64`. -/
def SCE_MOTION_MAX_NUM_STATES : Nat := 64

/-- Modelled from the spec: `SDL_MAX_UINT32` (the spec's `UINT32_MAX`), the largest
unsigned 32-bit value; its header is not part of the sources. -/
def SDL_MAX_UINT32 : Nat := 4294967295

/-- Modelled from the spec: the macro `SDL_US_TO_NS` ("convert delta, documented as
microseconds, to nanoseconds"), whose header is not part of the sources: the argument is
widened to unsigned 64-bit and multiplied by 1000 in unsigned 64-bit arithmetic. -/
def SDL_US_TO_NS (us : Nat) : Nat := ((us % 2 ^ 64) * 1000) % 2 ^ 64

/-- The operations on C `float` the driver uses. `F` stands for the type `float`. -/
structure FloatOps (F : Type) where
  /-- The value `0.0f` (all bits zero), as left by `SDL_zero`. -/
  zero : F
  /-- Single-precision multiplication. -/
  mul : F → F → F
  /-- The constant `SDL_STANDARD_GRAVITY` (the spec's standard gravity, 9.80665). -/
  SDL_STANDARD_GRAVITY : F

/-- Modelled from the spec: the enumeration `SDL_SensorType`, declared in a header that is
not part of the sources. The source names `SDL_SENSOR_INVALID`, `SDL_SENSOR_ACCEL` and
`SDL_SENSOR_GYRO`; every other enumerator behaves like `SDL_SENSOR_UNKNOWN` (it takes the
`default` branches). -/
inductive SDL_SensorType where
  | SDL_SENSOR_INVALID
  | SDL_SENSOR_UNKNOWN
  | SDL_SENSOR_ACCEL
  | SDL_SENSOR_GYRO
  deriving DecidableEq, Repr

open SDL_SensorType

/-- Conversion of a C `int` to `SDL_SensorID` (unsigned 32-bit), as performed by
`return -1;` in a function returning `SDL_SensorID`. -/
def toSensorID (v : Int) : Nat := (v % 2 ^ 32).toNat

/-- The struct `SDL_VitaSensor` (lines 33-37 of the source). -/
structure SDL_VitaSensor where
  type : SDL_SensorType
  instance_id : Nat
  deriving DecidableEq, Repr

/-- The file-level statics `SDL_sensors` (`none` is the null pointer) and
`SDL_sensors_count` (lines 39-40 of the source). -/
structure Driver where
  SDL_sensors : Option (List SDL_VitaSensor)
  SDL_sensors_count : Int
  deriving DecidableEq, Repr

/-- The driver state at program start: C zero-initialises statics. -/
def Driver.initial : Driver := ⟨none, 0⟩

/-- Modelled from the spec: the statuses returned by the five motion-facility calls of
`initializeSampling` (reset, start sampling, angle threshold, deadband, tilt correction);
`0` is success, anything else a failure status. The facility is not part of the sources. -/
structure MotionInitStatus where
  sceMotionReset : Int
  sceMotionStartSampling : Int
  sceMotionSetAngleThreshold : Int
  sceMotionSetDeadband : Int
  sceMotionSetTiltCorrection : Int
  deriving DecidableEq, Repr

/-- Whether the `initializeSampling` step reported a failure status. -/
def MotionInitStatus.failed (hw : MotionInitStatus) : Bool :=
  hw.sceMotionReset != 0 || hw.sceMotionStartSampling != 0 ||
  hw.sceMotionSetAngleThreshold != 0 || hw.sceMotionSetDeadband != 0 ||
  hw.sceMotionSetTiltCorrection != 0

/-- Modelled from the spec: the "unique-instance-identifier generator"
`SDL_GetNextObjectID`, which is not part of the sources. The state is the last identifier
handed out; each call returns the next one, so no identifier is returned twice. -/
def SDL_GetNextObjectID (last_id : Nat) : Nat × Nat := (last_id + 1, last_id + 1)

/-- Modelled from the spec: `SDL_calloc(n, sizeof(SDL_VitaSensor))`, which is not part of
the sources: the null pointer on resource exhaustion (`ok = false`), otherwise `n`
zero-filled entries. -/
def SDL_calloc (ok : Bool) (n : Nat) : Option (List SDL_VitaSensor) :=
  if ok then some (List.replicate n ⟨SDL_SENSOR_UNKNOWN, 0⟩) else none

/-- Modelled from the spec: the struct `sensor_hwdata` (the spec's `SensorRuntimeState`),
declared in `SDL_vitasensor.h`, which is not part of the sources: `counter` unsigned,
`last_tick` unsigned 32-bit, `sensor_timestamp` unsigned 64-bit. -/
structure sensor_hwdata where
  counter : Nat
  last_tick : Nat
  sensor_timestamp : Nat
  deriving DecidableEq, Repr

/-- Modelled from the spec: `SDL_calloc(1, sizeof(struct sensor_hwdata))`: the null pointer
on resource exhaustion, otherwise a record with all fields zero. -/
def SDL_calloc_hwdata (ok : Bool) : Option sensor_hwdata :=
  if ok then some ⟨0, 0, 0⟩ else none

/-- Modelled from the spec: the fields of `SDL_Sensor` the driver touches (`type`,
`hwdata`; `none` is the null pointer), and the instance id that identifies the sensor to
the event sink. The struct is declared in a header that is not part of the sources. -/
structure SDL_Sensor where
  instance_id : Nat
  type : SDL_SensorType
  hwdata : Option sensor_hwdata
  deriving DecidableEq, Repr

/-- Modelled from the spec: a three-axis `float` vector of the motion facility. -/
structure SceFVector3 (F : Type) where
  x : F
  y : F
  z : F
  deriving DecidableEq, Repr

/-- Modelled from the spec: the fields of `SceMotionSensorState` (the spec's
`RawMotionSample`) the driver reads: acceleration and angular rate, a raw unsigned 32-bit
`timestamp` tick and the unsigned sample `counter`. -/
structure SceMotionSensorState (F : Type) where
  accelerometer : SceFVector3 F
  gyro : SceFVector3 F
  timestamp : Nat
  counter : Nat
  deriving DecidableEq, Repr

/-- The all-zero record, as left in every buffer entry by `SDL_zero(motionState)`. -/
def zeroState {F : Type} (fo : FloatOps F) : SceMotionSensorState F :=
  ⟨⟨fo.zero, fo.zero, fo.zero⟩, ⟨fo.zero, fo.zero, fo.zero⟩, 0, 0⟩

/-- `SDL_zero(motionState)` on the local array of `SCE_MOTION_MAX_NUM_STATES` records. -/
def SDL_zero {F : Type} (fo : FloatOps F) : List (SceMotionSensorState F) :=
  List.replicate SCE_MOTION_MAX_NUM_STATES (zeroState fo)

/-- Modelled from the spec: what one `pollSamples` call of the motion facility does: the
status it reports and the records it has available. -/
structure MotionPoll (F : Type) where
  err : Int
  states : List (SceMotionSensorState F)
  deriving DecidableEq, Repr

/-- Modelled from the spec: `sceMotionGetSensorState(buf, numRecords)` ("fills as many
entries as currently available, bounded by N"): the available records, at most
`numRecords` of them, overwrite the first entries of the buffer; the rest of the buffer
is left as it was. Returns the status and the buffer. -/
def sceMotionGetSensorState {F : Type} (p : MotionPoll F)
    (buf : List (SceMotionSensorState F)) (numRecords : Nat) :
    Int × List (SceMotionSensorState F) :=
  (p.err, p.states.take numRecords ++ buf.drop (p.states.take numRecords).length)

/-- Modelled from the spec: one call `SDL_SendSensorUpdate(timestamp, sensor,
sensor_timestamp, data, 3)` to the sensor-event sink (the spec's `SensorEvent`). -/
structure SensorEvent (F : Type) where
  timestamp : Nat
  sensor : Nat
  sensor_timestamp : Nat
  data : List F
  deriving DecidableEq, Repr

/-! ## Driver lifecycle: init, count, lookups, open -/

/-- `SDL_VITA_SensorInit` (lines 42-64). The statuses of the five motion-facility calls
are discarded, as in the source. Returns the result, the new statics and the new state
of the object-id generator. -/
def SDL_VITA_SensorInit (_hw : MotionInitStatus) (callocOk : Bool) (last_id : Nat)
    (_d : Driver) : Bool × Driver × Nat :=
  let count : Int := 2
  match SDL_calloc callocOk count.toNat with
  | none => (false, ⟨none, count⟩, last_id)
  | some sensors =>
    let sensors := sensors.modify (fun e => { e with type := SDL_SENSOR_ACCEL }) 0
    let (id0, last_id) := SDL_GetNextObjectID last_id
    let sensors := sensors.modify (fun e => { e with instance_id := id0 }) 0
    let sensors := sensors.modify (fun e => { e with type := SDL_SENSOR_GYRO }) 1
    let (id1, last_id) := SDL_GetNextObjectID last_id
    let sensors := sensors.modify (fun e => { e with instance_id := id1 }) 1
    (true, ⟨some sensors, count⟩, last_id)

/-- `SDL_VITA_SensorGetCount` (lines 66-69). -/
def SDL_VITA_SensorGetCount (d : Driver) : Int := d.SDL_sensors_count

/-- The result of a lookup: the positions of `SDL_sensors` it read, and the value it
returned; `value = none` when a read fell outside the allocated table (null table, or a
position outside `0 .. length-1`), where C leaves the behaviour undefined. -/
structure Lookup (α : Type) where
  reads : List Int
  value : Option α
  deriving DecidableEq, Repr

/-- The read `SDL_sensors[i]`. -/
def readSensor (d : Driver) (i : Int) : Option SDL_VitaSensor :=
  match d.SDL_sensors with
  | none => none
  | some sensors => if 0 ≤ i then sensors.get? i.toNat else none

/-- `SDL_VITA_SensorGetDeviceName` (lines 75-89); the returned `none` is `NULL`. -/
def SDL_VITA_SensorGetDeviceName (d : Driver) (device_index : Int) : Lookup (Option String) :=
  if device_index < d.SDL_sensors_count then
    ⟨[device_index], (readSensor d device_index).map (fun e =>
      match e.type with
      | SDL_SENSOR_ACCEL => some "Accelerometer"
      | SDL_SENSOR_GYRO => some "Gyro"
      | _ => some "Unknown")⟩
  else ⟨[], some none⟩

/-- `SDL_VITA_SensorGetDeviceType` (lines 91-98). -/
def SDL_VITA_SensorGetDeviceType (d : Driver) (device_index : Int) : Lookup SDL_SensorType :=
  if device_index < d.SDL_sensors_count then
    ⟨[device_index], (readSensor d device_index).map (fun e => e.type)⟩
  else ⟨[], some SDL_SENSOR_INVALID⟩

/-- `SDL_VITA_SensorGetDeviceNonPortableType` (lines 100-106). The numeric values of the
enumerators are not in the sources: `enc` is the conversion of `SDL_SensorType` to `int`. -/
def SDL_VITA_SensorGetDeviceNonPortableType (enc : SDL_SensorType → Int) (d : Driver)
    (device_index : Int) : Lookup Int :=
  if device_index < d.SDL_sensors_count then
    ⟨[device_index], (readSensor d device_index).map (fun e => enc e.type)⟩
  else ⟨[], some (-1)⟩

/-- `SDL_VITA_SensorGetDeviceInstanceID` (lines 108-114); `-1` is converted to the
unsigned return type `SDL_SensorID`. -/
def SDL_VITA_SensorGetDeviceInstanceID (d : Driver) (device_index : Int) : Lookup Nat :=
  if device_index < d.SDL_sensors_count then
    ⟨[device_index], (readSensor d device_index).map (fun e => e.instance_id)⟩
  else ⟨[], some (toSensorID (-1))⟩

/-- `SDL_VITA_SensorOpen` (lines 116-127). `device_index` is not used, as in the source. -/
def SDL_VITA_SensorOpen (callocOk : Bool) (sensor : SDL_Sensor) (_device_index : Int) :
    Bool × SDL_Sensor :=
  match SDL_calloc_hwdata callocOk with
  | none => (false, sensor)
  | some hwdata => (true, { sensor with hwdata := some hwdata })

/-! ## Update -/

/-- Unsigned 32-bit subtraction `a - b`. -/
def sub32 (a b : Nat) : Nat := (a + 2 ^ 32 - b % 2 ^ 32) % 2 ^ 32

/-- Unsigned 32-bit addition `a + b`. -/
def add32 (a b : Nat) : Nat := (a + b) % 2 ^ 32

/-- The value assigned to the local `delta` (lines 148-153), every operation in unsigned
32-bit arithmetic, in the source's order of evaluation. -/
def delta (last_tick tick : Nat) : Nat :=
  if last_tick > tick then
    add32 (add32 (sub32 SDL_MAX_UINT32 last_tick) tick) 1
  else
    sub32 tick last_tick

/-- The body of the `for` loop (lines 142-177) for the buffer entry `m`: the new runtime
state and the calls made to `SDL_SendSensorUpdate`. `id` and `type` are the sensor's
instance id and `sensor->type`, `timestamp` is the local read from `SDL_GetTicksNS`. -/
def updateSample {F : Type} (fo : FloatOps F) (timestamp : Nat) (id : Nat)
    (type : SDL_SensorType) (hw : sensor_hwdata) (m : SceMotionSensorState F) :
    sensor_hwdata × List (SensorEvent F) :=
  if hw.counter < m.counter then
    let tick := m.timestamp
    let hw := { hw with counter := m.counter }
    let d := delta hw.last_tick tick
    let hw := { hw with sensor_timestamp := (hw.sensor_timestamp + SDL_US_TO_NS d) % 2 ^ 64 }
    let hw := { hw with last_tick := tick }
    match type with
    | SDL_SENSOR_ACCEL =>
      (hw, [⟨timestamp, id, hw.sensor_timestamp,
        [fo.mul m.accelerometer.x fo.SDL_STANDARD_GRAVITY,
         fo.mul m.accelerometer.y fo.SDL_STANDARD_GRAVITY,
         fo.mul m.accelerometer.z fo.SDL_STANDARD_GRAVITY]⟩])
    | SDL_SENSOR_GYRO =>
      (hw, [⟨timestamp, id, hw.sensor_timestamp, [m.gyro.x, m.gyro.y, m.gyro.z]⟩])
    | _ => (hw, [])
  else
    (hw, [])

/-- One iteration of the loop on the pair (runtime state, events sent so far). -/
def updateStep {F : Type} (fo : FloatOps F) (timestamp : Nat) (id : Nat)
    (type : SDL_SensorType) (acc : sensor_hwdata × List (SensorEvent F))
    (m : SceMotionSensorState F) : sensor_hwdata × List (SensorEvent F) :=
  ((updateSample fo timestamp id type acc.1 m).1,
   acc.2 ++ (updateSample fo timestamp id type acc.1 m).2)

/-- `SDL_VITA_SensorUpdate` (lines 129-179). `timestamp` is the value of
`SDL_GetTicksNS()`, `p` what the motion facility does on this call. Returns the sensor
and the events sent, in order; `none` when the loop dereferences a null `hwdata`. -/
def SDL_VITA_SensorUpdate {F : Type} (fo : FloatOps F) (timestamp : Nat) (p : MotionPoll F)
    (sensor : SDL_Sensor) : Option (SDL_Sensor × List (SensorEvent F)) :=
  let motionState := SDL_zero fo
  let (err, motionState) := sceMotionGetSensorState p motionState SCE_MOTION_MAX_NUM_STATES
  if err ≠ 0 then
    some (sensor, [])
  else
    match sensor.hwdata with
    | none => none
    | some hwdata =>
      let r := (List.range SCE_MOTION_MAX_NUM_STATES).foldl
        (fun acc i => updateStep fo timestamp sensor.instance_id sensor.type acc
          (motionState.getD i (zeroState fo)))
        (hwdata, [])
      some ({ sensor with hwdata := some r.1 }, r.2)

/-! ## Sequences of update calls -/

/-- One call of `SDL_VITA_SensorUpdate`: the wall-clock value it reads and what the motion
facility does. -/
structure UpdateCall (F : Type) where
  timestamp : Nat
  poll : MotionPoll F
  deriving DecidableEq, Repr

/-- A sequence of update calls on one sensor, in order: the sensor afterwards and all
events sent, in order. -/
def runUpdates {F : Type} (fo : FloatOps F) :
    SDL_Sensor → List (UpdateCall F) → Option (SDL_Sensor × List (SensorEvent F))
  | sensor, [] => some (sensor, [])
  | sensor, c :: cs =>
    match SDL_VITA_SensorUpdate fo c.timestamp c.poll sensor with
    | none => none
    | some (sensor1, evs1) =>
      match runUpdates fo sensor1 cs with
      | none => none
      | some (sensor2, evs2) => some (sensor2, evs1 ++ evs2)

/-- The content of `motionState` after the poll of one update call. -/
def motionBuffer {F : Type} (fo : FloatOps F) (p : MotionPoll F) :
    List (SceMotionSensorState F) :=
  (sceMotionGetSensorState p (SDL_zero fo) SCE_MOTION_MAX_NUM_STATES).2

/-- The buffer entries the loop of one successful update call examines, in index order,
each paired with the wall-clock value of the call. -/
def examined {F : Type} (fo : FloatOps F) (c : UpdateCall F) :
    List (Nat × SceMotionSensorState F) :=
  (List.range SCE_MOTION_MAX_NUM_STATES).map
    (fun i => (c.timestamp, (motionBuffer fo c.poll).getD i (zeroState fo)))

/-- The samples processed by a sequence of update calls, in processing order: a call
whose poll reports a non-zero status processes none. -/
def processed {F : Type} (fo : FloatOps F) :
    List (UpdateCall F) → List (Nat × SceMotionSensorState F)
  | [] => []
  | c :: cs => (if c.poll.err ≠ 0 then [] else examined fo c) ++ processed fo cs

/-- The loop body applied to a list of samples in order, starting from the pair
(runtime state, events sent so far). -/
def runSamples {F : Type} (fo : FloatOps F) (id : Nat) (type : SDL_SensorType)
    (acc : sensor_hwdata × List (SensorEvent F))
    (samples : List (Nat × SceMotionSensorState F)) :
    sensor_hwdata × List (SensorEvent F) :=
  samples.foldl (fun acc s => updateStep fo s.1 id type acc s.2) acc

/-- The runtime state of `sensor` once the listed samples have been processed, starting
from the runtime state `hw`. -/
def stateAfter {F : Type} (fo : FloatOps F) (sensor : SDL_Sensor) (hw : sensor_hwdata)
    (samples : List (Nat × SceMotionSensorState F)) : sensor_hwdata :=
  (runSamples fo sensor.instance_id sensor.type (hw, []) samples).1

/-- The events sent while the listed samples are processed, starting from the runtime
state `hw`. -/
def eventsAfter {F : Type} (fo : FloatOps F) (sensor : SDL_Sensor) (hw : sensor_hwdata)
    (samples : List (Nat × SceMotionSensorState F)) : List (SensorEvent F) :=
  (runSamples fo sensor.instance_id sensor.type (hw, []) samples).2

/-- The loop body of `sensor` on one processed sample `s` (wall-clock value of its call,
buffer entry) in the runtime state `hw`. -/
def sampleResult {F : Type} (fo : FloatOps F) (sensor : SDL_Sensor) (hw : sensor_hwdata)
    (s : Nat × SceMotionSensorState F) : sensor_hwdata × List (SensorEvent F) :=
  updateSample fo s.1 sensor.instance_id sensor.type hw s.2

/-- The samples of the list that the loop body of `sensor` accepts (stored counter
strictly below the sample's counter at the moment the sample is processed), in
processing order, starting from the runtime state `hw`. -/
def acceptedSamples {F : Type} (fo : FloatOps F) (sensor : SDL_Sensor) :
    sensor_hwdata → List (Nat × SceMotionSensorState F) → List (Nat × SceMotionSensorState F)
  | _, [] => []
  | hw, s :: l =>
    if hw.counter < s.2.counter then
      s :: acceptedSamples fo sensor (sampleResult fo sensor hw s).1 l
    else
      acceptedSamples fo sensor (sampleResult fo sensor hw s).1 l

/-- Whether the unsigned 64-bit accumulator never wraps while the listed samples are
processed from the runtime state `hw`: at every accepted sample the exact sum of the
stored timestamp and the increment stays below `2^64`. -/
def accumulatorFits {F : Type} (fo : FloatOps F) (sensor : SDL_Sensor) :
    sensor_hwdata → List (Nat × SceMotionSensorState F) → Bool
  | _, [] => true
  | hw, s :: l =>
    (if hw.counter < s.2.counter then
      decide (hw.sensor_timestamp + SDL_US_TO_NS (delta hw.last_tick s.2.timestamp) < 2 ^ 64)
    else true)
    && accumulatorFits fo sensor (sampleResult fo sensor hw s).1 l

/-- The state an update call can reach: the driver statics and the sensor objects that
exist, each owning the runtime state attached to it by its own `SDL_VITA_SensorOpen`. -/
structure World where
  driver : Driver
  sensors : List SDL_Sensor
  deriving DecidableEq, Repr

/-- `SDL_VITA_SensorUpdate` called on the `i`-th sensor object of the world. The source
function names neither `SDL_sensors` nor `SDL_sensors_count` and writes only through the
`sensor` pointer it is given, so the statics and the other sensor objects are carried
over. `none` when there is no `i`-th sensor or the call dereferences a null `hwdata`. -/
def updateSensor {F : Type} (fo : FloatOps F) (timestamp : Nat) (p : MotionPoll F)
    (w : World) (i : Nat) : Option (World × List (SensorEvent F)) :=
  match w.sensors.get? i with
  | none => none
  | some sensor =>
    match SDL_VITA_SensorUpdate fo timestamp p sensor with
    | none => none
    | some (sensor1, evs) => some (⟨w.driver, w.sensors.set i sensor1⟩, evs)

/-- A fixed-point stand-in for `float` with five decimals (`1.0` is `100000`), used to
evaluate the definitions on concrete inputs. -/
def fixedOps : FloatOps Int := ⟨0, fun a b => a * b / 100000, 980665⟩

/-- The `i`-th call of a sequence in which the hardware tick goes down by one from call to
call, so that each accepted sample is `2^32 - 1` ticks after the previous one. -/
def descendingCall (i : Nat) : UpdateCall Int :=
  ⟨0, ⟨0, [⟨⟨0, 0, 0⟩, ⟨0, 0, 0⟩, 4294967295 - i, i + 1⟩]⟩⟩

/-- The first `n` calls of that sequence. -/
def descendingCalls (n : Nat) : List (UpdateCall Int) :=
  (List.range n).map descendingCall

/-! ## Auxiliary lemmas -/

theorem two_pow_32 : (2 : Nat) ^ 32 = 4294967296 := by norm_num

theorem two_pow_64 : (2 : Nat) ^ 64 = 18446744073709551616 := by norm_num

theorem delta_lt (last_tick tick : Nat) : delta last_tick tick < 4294967296 := by
  unfold delta add32 sub32
  rw [two_pow_32]
  split <;> omega

theorem SDL_US_TO_NS_delta (last_tick tick : Nat) :
    SDL_US_TO_NS (delta last_tick tick) = 1000 * delta last_tick tick := by
  have h := delta_lt last_tick tick
  unfold SDL_US_TO_NS
  rw [two_pow_64]
  omega

theorem runSamples_nil {F : Type} (fo : FloatOps F) (id : Nat) (type : SDL_SensorType)
    (acc : sensor_hwdata × List (SensorEvent F)) :
    runSamples fo id type acc [] = acc := rfl

theorem runSamples_cons {F : Type} (fo : FloatOps F) (id : Nat) (type : SDL_SensorType)
    (acc : sensor_hwdata × List (SensorEvent F)) (s : Nat × SceMotionSensorState F)
    (l : List (Nat × SceMotionSensorState F)) :
    runSamples fo id type acc (s :: l)
      = runSamples fo id type (updateStep fo s.1 id type acc s.2) l := rfl

theorem runSamples_append {F : Type} (fo : FloatOps F) (id : Nat) (type : SDL_SensorType)
    (acc : sensor_hwdata × List (SensorEvent F))
    (l1 l2 : List (Nat × SceMotionSensorState F)) :
    runSamples fo id type acc (l1 ++ l2)
      = runSamples fo id type (runSamples fo id type acc l1) l2 := by
  unfold runSamples
  rw [List.foldl_append]

/-- The events already sent are a prefix of the result and do not influence the run. -/
theorem runSamples_acc {F : Type} (fo : FloatOps F) (id : Nat) (type : SDL_SensorType)
    (l : List (Nat × SceMotionSensorState F)) :
    ∀ (hw : sensor_hwdata) (evs : List (SensorEvent F)),
      runSamples fo id type (hw, evs) l
        = ((runSamples fo id type (hw, []) l).1,
           evs ++ (runSamples fo id type (hw, []) l).2) := by
  induction l with
  | nil => intro hw evs; simp [runSamples_nil]
  | cons s l ih =>
    intro hw evs
    rw [runSamples_cons, runSamples_cons]
    simp only [updateStep]
    rw [ih, ih _ ([] ++ _)]
    simp [List.append_assoc]

theorem processed_append {F : Type} (fo : FloatOps F) (l1 l2 : List (UpdateCall F)) :
    processed fo (l1 ++ l2) = processed fo l1 ++ processed fo l2 := by
  induction l1 with
  | nil => simp [processed]
  | cons c cs ih => simp [processed, ih, List.append_assoc]

theorem map_range_getD {α : Type} (d : α) (l : List α) :
    (List.range l.length).map (fun i => l.getD i d) = l := by
  apply List.ext_getElem
  · simp
  · intro i h1 h2
    simp [List.getD_eq_getElem?_getD, List.getElem?_eq_getElem h2]

/-- The loop of one update call is the loop body run over the examined entries. -/
theorem update_loop_eq {F : Type} (fo : FloatOps F) (c : UpdateCall F) (id : Nat)
    (type : SDL_SensorType) (acc : sensor_hwdata × List (SensorEvent F)) :
    (List.range SCE_MOTION_MAX_NUM_STATES).foldl
        (fun acc i => updateStep fo c.timestamp id type acc
          ((motionBuffer fo c.poll).getD i (zeroState fo))) acc
      = runSamples fo id type acc (examined fo c) := by
  unfold runSamples examined
  rw [List.foldl_map]

/-- An update call on an open sensor whose poll succeeds. -/
theorem update_open {F : Type} (fo : FloatOps F) (c : UpdateCall F) (sensor : SDL_Sensor)
    (hw : sensor_hwdata) (hopen : sensor.hwdata = some hw) (herr : c.poll.err = 0) :
    SDL_VITA_SensorUpdate fo c.timestamp c.poll sensor
      = some (⟨sensor.instance_id, sensor.type, some
                (runSamples fo sensor.instance_id sensor.type (hw, []) (examined fo c)).1⟩,
              (runSamples fo sensor.instance_id sensor.type (hw, []) (examined fo c)).2) := by
  unfold SDL_VITA_SensorUpdate
  simp only [sceMotionGetSensorState, herr, ne_eq, not_true_eq_false, if_false, hopen]
  rw [← update_loop_eq]
  rfl

/-- An update call whose poll fails. -/
theorem update_failed {F : Type} (fo : FloatOps F) (timestamp : Nat) (p : MotionPoll F)
    (sensor : SDL_Sensor) (herr : p.err ≠ 0) :
    SDL_VITA_SensorUpdate fo timestamp p sensor = some (sensor, []) := by
  unfold SDL_VITA_SensorUpdate
  simp [sceMotionGetSensorState, herr]

/-- A sequence of update calls on an open sensor is the loop body run over the processed
samples. -/
theorem runUpdates_open {F : Type} (fo : FloatOps F) (calls : List (UpdateCall F)) :
    ∀ (sensor : SDL_Sensor) (hw : sensor_hwdata), sensor.hwdata = some hw →
      runUpdates fo sensor calls
        = some (⟨sensor.instance_id, sensor.type, some
                  (runSamples fo sensor.instance_id sensor.type (hw, [])
                    (processed fo calls)).1⟩,
                (runSamples fo sensor.instance_id sensor.type (hw, [])
                  (processed fo calls)).2) := by
  induction calls with
  | nil =>
    intro sensor hw hopen
    cases sensor
    simp_all [runUpdates, processed, runSamples_nil]
  | cons c cs ih =>
    intro sensor hw hopen
    by_cases herr : c.poll.err = 0
    · rw [runUpdates, update_open fo c sensor hw hopen herr]
      simp only []
      rw [ih _ _ rfl]
      simp only [processed, herr, ne_eq, not_true_eq_false, if_false]
      have h := runSamples_acc fo sensor.instance_id sensor.type (processed fo cs)
        (runSamples fo sensor.instance_id sensor.type (hw, []) (examined fo c)).1
        (runSamples fo sensor.instance_id sensor.type (hw, []) (examined fo c)).2
      rw [Prod.mk.eta] at h
      rw [runSamples_append, h]
    · rw [runUpdates, update_failed fo c.timestamp c.poll sensor herr]
      simp only []
      rw [ih _ _ hopen]
      simp [processed, herr]

/-- The counter stored after a sample is below `c` exactly when the counter stored before
and the sample's counter both are. -/
theorem updateSample_counter_lt {F : Type} (fo : FloatOps F) (timestamp id : Nat)
    (type : SDL_SensorType) (hw : sensor_hwdata) (m : SceMotionSensorState F) (c : Nat) :
    (updateSample fo timestamp id type hw m).1.counter < c
      ↔ hw.counter < c ∧ m.counter < c := by
  unfold updateSample
  by_cases h : hw.counter < m.counter
  · rw [if_pos h]
    cases type <;> simp only [] <;> omega
  · rw [if_neg h]
    simp only []
    omega

theorem runSamples_counter_lt {F : Type} (fo : FloatOps F) (id : Nat) (type : SDL_SensorType)
    (c : Nat) (l : List (Nat × SceMotionSensorState F)) :
    ∀ (acc : sensor_hwdata × List (SensorEvent F)),
      (runSamples fo id type acc l).1.counter < c
        ↔ acc.1.counter < c ∧ ∀ p ∈ l, p.2.counter < c := by
  induction l with
  | nil => intro acc; simp [runSamples_nil]
  | cons s l ih =>
    intro acc
    rw [runSamples_cons, ih]
    simp only [updateStep, updateSample_counter_lt, List.mem_cons, forall_eq_or_imp]
    tauto

/-- For an accelerometer or a gyroscope, the loop body sends one event when it accepts
the sample and none otherwise. -/
theorem updateSample_events {F : Type} (fo : FloatOps F) (timestamp id : Nat)
    (type : SDL_SensorType) (htype : type = SDL_SENSOR_ACCEL ∨ type = SDL_SENSOR_GYRO)
    (hw : sensor_hwdata) (m : SceMotionSensorState F) :
    ((updateSample fo timestamp id type hw m).2.length = 1 ↔ hw.counter < m.counter)
    ∧ ((updateSample fo timestamp id type hw m).2 = [] ↔ ¬ hw.counter < m.counter) := by
  unfold updateSample
  by_cases h : hw.counter < m.counter
  · rw [if_pos h]
    rcases htype with rfl | rfl <;> simp [h]
  · rw [if_neg h]
    simp [h]

/-- Samples whose counter does not exceed the stored counter leave state and events alone. -/
theorem runSamples_dropped {F : Type} (fo : FloatOps F) (id : Nat) (type : SDL_SensorType)
    (l : List (Nat × SceMotionSensorState F)) :
    ∀ (acc : sensor_hwdata × List (SensorEvent F)),
      (∀ p ∈ l, p.2.counter ≤ acc.1.counter) → runSamples fo id type acc l = acc := by
  induction l with
  | nil => intro acc _; rfl
  | cons s l ih =>
    intro acc h
    have hs : ¬ acc.1.counter < s.2.counter := by
      have := h s (List.mem_cons_self _ _)
      omega
    have hstep : updateStep fo s.1 id type acc s.2 = acc := by
      simp [updateStep, updateSample, hs]
    rw [runSamples_cons, hstep]
    exact ih acc (fun p hp => h p (List.mem_cons_of_mem _ hp))

/-- A run of update calls on an open sensor, cut at one processed sample: the final
runtime state and the events are those of the samples before it, of the sample itself
and of the samples after it, in this order. -/
theorem runUpdates_split {F : Type} (fo : FloatOps F) (sensor : SDL_Sensor)
    (hw0 : sensor_hwdata) (hopen : sensor.hwdata = some hw0) (calls : List (UpdateCall F))
    (pre : List (Nat × SceMotionSensorState F)) (s : Nat × SceMotionSensorState F)
    (post : List (Nat × SceMotionSensorState F))
    (hsplit : processed fo calls = pre ++ s :: post) :
    runUpdates fo sensor calls
      = some (⟨sensor.instance_id, sensor.type, some
                (stateAfter fo sensor
                  (sampleResult fo sensor (stateAfter fo sensor hw0 pre) s).1 post)⟩,
              eventsAfter fo sensor hw0 pre
                ++ (sampleResult fo sensor (stateAfter fo sensor hw0 pre) s).2
                ++ eventsAfter fo sensor
                    (sampleResult fo sensor (stateAfter fo sensor hw0 pre) s).1 post) := by
  rw [runUpdates_open fo calls sensor hw0 hopen, hsplit, runSamples_append, runSamples_cons]
  simp only [updateStep, stateAfter, eventsAfter, sampleResult]
  rw [runSamples_acc]

theorem examined_descendingCall (i : Nat) :
    examined fixedOps (descendingCall i)
      = (0, ⟨⟨0, 0, 0⟩, ⟨0, 0, 0⟩, 4294967295 - i, i + 1⟩)
          :: List.replicate 63 (0, zeroState fixedOps) := rfl

theorem processed_descendingCalls_succ (n : Nat) :
    processed fixedOps (descendingCalls (n + 1))
      = processed fixedOps (descendingCalls n) ++ examined fixedOps (descendingCall n) := by
  unfold descendingCalls
  rw [List.range_succ, List.map_append, processed_append]
  simp [processed, descendingCall]

/-- The runtime state of a freshly opened sensor after the first `n` calls of the
descending sequence: `n` samples accepted, each `2^32 - 1` ticks after the previous one. -/
theorem runSamples_descendingCalls (id : Nat) (type : SDL_SensorType) (n : Nat)
    (hn : n ≤ 4294967295) :
    (runSamples fixedOps id type (⟨0, 0, 0⟩, []) (processed fixedOps (descendingCalls n))).1
      = ⟨n, (4294967296 - n) % 4294967296,
          (n * 4294967295000) % 18446744073709551616⟩ := by
  induction n with
  | zero => rfl
  | succ n ih =>
    have ih := ih (by omega)
    rw [processed_descendingCalls_succ, runSamples_append, examined_descendingCall,
      runSamples_cons]
    have hstep : (updateStep fixedOps 0 id type
        (runSamples fixedOps id type (⟨0, 0, 0⟩, []) (processed fixedOps (descendingCalls n)))
        (⟨⟨0, 0, 0⟩, ⟨0, 0, 0⟩, 4294967295 - n, n + 1⟩ : SceMotionSensorState Int)).1
        = ⟨n + 1, (4294967296 - (n + 1)) % 4294967296,
            ((n + 1) * 4294967295000) % 18446744073709551616⟩ := by
      have hd : delta ((4294967296 - n) % 4294967296) (4294967295 - n) = 4294967295 := by
        unfold delta add32 sub32 SDL_MAX_UINT32
        rw [two_pow_32]
        split <;> omega
      have hus : SDL_US_TO_NS 4294967295 = 4294967295000 := by
        norm_num [SDL_US_TO_NS]
      simp only [updateStep, updateSample, ih, show n < n + 1 from Nat.lt_succ_self n, if_true]
      cases type <;> simp only [hd, hus, two_pow_64, sensor_hwdata.mk.injEq, true_and] <;>
        exact ⟨by omega, by omega⟩
    rw [runSamples_dropped]
    · exact hstep
    · intro p hp
      rw [List.mem_replicate] at hp
      rw [hp.2, hstep]
      simp [zeroState]

/-- The result of `SDL_VITA_SensorInit` in closed form. -/
theorem SDL_VITA_SensorInit_eq (hw : MotionInitStatus) (callocOk : Bool) (last_id : Nat)
    (d : Driver) :
    SDL_VITA_SensorInit hw callocOk last_id d
      = if callocOk then
          (true, ⟨some [⟨SDL_SENSOR_ACCEL, last_id + 1⟩, ⟨SDL_SENSOR_GYRO, last_id + 2⟩], 2⟩,
            last_id + 2)
        else (false, ⟨none, 2⟩, last_id) := by
  cases callocOk <;> rfl

theorem motionBuffer_length {F : Type} (fo : FloatOps F) (p : MotionPoll F) :
    (motionBuffer fo p).length = SCE_MOTION_MAX_NUM_STATES := by
  simp only [motionBuffer, sceMotionGetSensorState, SDL_zero, SCE_MOTION_MAX_NUM_STATES,
    List.length_append, List.length_take, List.length_drop, List.length_replicate]
  omega

/-- The entries examined by a successful call are the buffer entries, in index order. -/
theorem examined_eq_map {F : Type} (fo : FloatOps F) (c : UpdateCall F) :
    examined fo c = (motionBuffer fo c.poll).map (fun m => (c.timestamp, m)) := by
  unfold examined
  rw [← motionBuffer_length fo c.poll]
  conv_rhs => rw [← map_range_getD (zeroState fo) (motionBuffer fo c.poll)]
  rw [List.map_map]
  rfl

/-- A poll with no available record leaves the zeroed buffer as it was. -/
theorem motionBuffer_no_records {F : Type} (fo : FloatOps F) (err : Int) :
    motionBuffer fo ⟨err, []⟩ = SDL_zero fo := by
  simp [motionBuffer, sceMotionGetSensorState]

theorem stateAfter_nil {F : Type} (fo : FloatOps F) (sensor : SDL_Sensor)
    (hw : sensor_hwdata) : stateAfter fo sensor hw [] = hw := rfl

theorem stateAfter_cons {F : Type} (fo : FloatOps F) (sensor : SDL_Sensor)
    (hw : sensor_hwdata) (s : Nat × SceMotionSensorState F)
    (l : List (Nat × SceMotionSensorState F)) :
    stateAfter fo sensor hw (s :: l)
      = stateAfter fo sensor (sampleResult fo sensor hw s).1 l := by
  simp only [stateAfter, sampleResult, runSamples_cons, updateStep]
  rw [runSamples_acc]

/-- The runtime state written by the loop body for an accepted sample. -/
theorem updateSample_accepted {F : Type} (fo : FloatOps F) (timestamp id : Nat)
    (type : SDL_SensorType) (hw : sensor_hwdata) (m : SceMotionSensorState F)
    (h : hw.counter < m.counter) :
    (updateSample fo timestamp id type hw m).1
      = ⟨m.counter, m.timestamp,
          (hw.sensor_timestamp + SDL_US_TO_NS (delta hw.last_tick m.timestamp)) % 2 ^ 64⟩ := by
  unfold updateSample
  rw [if_pos h]
  cases type <;> rfl

/-- The loop body on a sample it does not accept. -/
theorem updateSample_rejected {F : Type} (fo : FloatOps F) (timestamp id : Nat)
    (type : SDL_SensorType) (hw : sensor_hwdata) (m : SceMotionSensorState F)
    (h : ¬ hw.counter < m.counter) :
    updateSample fo timestamp id type hw m = (hw, []) := by
  unfold updateSample
  rw [if_neg h]

/-- A successful update call none of whose buffer entries has a counter above the stored
one sends nothing and leaves the sensor as it was. -/
theorem update_all_old {F : Type} (fo : FloatOps F) (timestamp : Nat)
    (p : MotionPoll F) (sensor : SDL_Sensor) (hw : sensor_hwdata)
    (hopen : sensor.hwdata = some hw) (herr : p.err = 0)
    (hold : ∀ m ∈ motionBuffer fo p, m.counter ≤ hw.counter) :
    SDL_VITA_SensorUpdate fo timestamp p sensor = some (sensor, []) := by
  have h := update_open fo ⟨timestamp, p⟩ sensor hw hopen herr
  simp only [] at h
  rw [h, runSamples_dropped]
  · cases sensor
    simp_all
  · intro q hq
    rw [examined_eq_map, List.mem_map] at hq
    obtain ⟨m, hm, rfl⟩ := hq
    exact hold m hm

/-- What the loop body puts into the events it sends. -/
theorem updateSample_event_fields {F : Type} (fo : FloatOps F) (timestamp id : Nat)
    (type : SDL_SensorType) (hw : sensor_hwdata) (m : SceMotionSensorState F) :
    ∀ e ∈ (updateSample fo timestamp id type hw m).2,
      e.timestamp = timestamp ∧ e.sensor = id
      ∧ e.sensor_timestamp = (updateSample fo timestamp id type hw m).1.sensor_timestamp := by
  intro e he
  unfold updateSample at he ⊢
  by_cases h : hw.counter < m.counter
  · rw [if_pos h] at he ⊢
    cases type <;> simp_all
  · rw [if_neg h] at he
    simp at he

/-- The loop body sends at most one event per buffer entry. -/
theorem updateSample_events_le_one {F : Type} (fo : FloatOps F) (timestamp id : Nat)
    (type : SDL_SensorType) (hw : sensor_hwdata) (m : SceMotionSensorState F) :
    (updateSample fo timestamp id type hw m).2.length ≤ 1 := by
  unfold updateSample
  by_cases h : hw.counter < m.counter
  · rw [if_pos h]
    cases type <;> simp
  · rw [if_neg h]
    simp

/-- Every event sent while samples of one call are processed carries the wall-clock
value of that call. -/
theorem runSamples_events_timestamp {F : Type} (fo : FloatOps F) (id : Nat)
    (type : SDL_SensorType) (t : Nat) (l : List (Nat × SceMotionSensorState F)) :
    ∀ (acc : sensor_hwdata × List (SensorEvent F)), (∀ s ∈ l, s.1 = t) →
      ∀ e ∈ (runSamples fo id type acc l).2, e ∈ acc.2 ∨ e.timestamp = t := by
  induction l with
  | nil => intro acc _ e he; exact Or.inl he
  | cons s l ih =>
    intro acc h e he
    rw [runSamples_cons] at he
    rcases ih _ (fun q hq => h q (List.mem_cons_of_mem _ hq)) e he with h1 | h1
    · simp only [updateStep, List.mem_append] at h1
      rcases h1 with h1 | h1
      · exact Or.inl h1
      · right
        rw [(updateSample_event_fields fo s.1 id type acc.1 s.2 e h1).1]
        exact h s (List.mem_cons_self _ _)
    · exact Or.inr h1

/-- At most one event is sent per processed sample. -/
theorem runSamples_events_length {F : Type} (fo : FloatOps F) (id : Nat)
    (type : SDL_SensorType) (l : List (Nat × SceMotionSensorState F)) :
    ∀ (acc : sensor_hwdata × List (SensorEvent F)),
      (runSamples fo id type acc l).2.length ≤ acc.2.length + l.length := by
  induction l with
  | nil => intro acc; simp [runSamples_nil]
  | cons s l ih =>
    intro acc
    rw [runSamples_cons]
    have h1 := ih (updateStep fo s.1 id type acc s.2)
    have h2 := updateSample_events_le_one fo s.1 id type acc.1 s.2
    simp only [updateStep, List.length_append, List.length_cons] at h1 ⊢
    omega

/-- An update of the `i`-th sensor of the world replaces that sensor by the result of
`SDL_VITA_SensorUpdate` on it. -/
theorem updateSensor_eq {F : Type} (fo : FloatOps F) (timestamp : Nat) (p : MotionPoll F)
    (w : World) (i : Nat) (s : SDL_Sensor) (r : SDL_Sensor × List (SensorEvent F))
    (hs : w.sensors.get? i = some s)
    (hr : SDL_VITA_SensorUpdate fo timestamp p s = some r) :
    updateSensor fo timestamp p w i = some (⟨w.driver, w.sensors.set i r.1⟩, r.2) := by
  unfold updateSensor
  rw [hs]
  simp only [hr]

/-- The counter stored after a sample is the larger of the stored and the sample counter. -/
theorem updateSample_counter {F : Type} (fo : FloatOps F) (timestamp id : Nat)
    (type : SDL_SensorType) (hw : sensor_hwdata) (m : SceMotionSensorState F) :
    (updateSample fo timestamp id type hw m).1.counter = max hw.counter m.counter := by
  by_cases h : hw.counter < m.counter
  · rw [updateSample_accepted fo timestamp id type hw m h]
    simp only []
    omega
  · rw [updateSample_rejected fo timestamp id type hw m h]
    simp only []
    omega

/-- The counter stored after a list of samples is the running maximum. -/
theorem stateAfter_counter {F : Type} (fo : FloatOps F) (sensor : SDL_Sensor)
    (l : List (Nat × SceMotionSensorState F)) :
    ∀ hw : sensor_hwdata,
      (stateAfter fo sensor hw l).counter
        = l.foldl (fun a s => max a s.2.counter) hw.counter := by
  induction l with
  | nil => intro hw; rfl
  | cons s l ih =>
    intro hw
    rw [stateAfter_cons, ih, List.foldl_cons, sampleResult, updateSample_counter]

theorem foldl_max_ge {α : Type} (f : α → Nat) (l : List α) :
    ∀ a : Nat, a ≤ l.foldl (fun a s => max a (f s)) a := by
  induction l with
  | nil => intro a; exact Nat.le_refl a
  | cons s l ih =>
    intro a
    rw [List.foldl_cons]
    exact Nat.le_trans (Nat.le_max_left a (f s)) (ih _)

/-- Every accepted sample has a counter above the counter stored at the start. -/
theorem acceptedSamples_gt {F : Type} (fo : FloatOps F) (sensor : SDL_Sensor)
    (l : List (Nat × SceMotionSensorState F)) :
    ∀ hw : sensor_hwdata, ∀ x ∈ acceptedSamples fo sensor hw l, hw.counter < x.2.counter := by
  induction l with
  | nil => intro hw x hx; simp [acceptedSamples] at hx
  | cons s l ih =>
    intro hw x hx
    have hc := updateSample_counter fo s.1 sensor.instance_id sensor.type hw s.2
    unfold acceptedSamples at hx
    by_cases h : hw.counter < s.2.counter
    · rw [if_pos h, List.mem_cons] at hx
      rcases hx with rfl | hx
      · exact h
      · have := ih _ x hx
        simp only [sampleResult] at this
        omega
    · rw [if_neg h] at hx
      have := ih _ x hx
      simp only [sampleResult] at this
      omega

/-- The counters of the accepted samples increase strictly. -/
theorem acceptedSamples_increasing {F : Type} (fo : FloatOps F) (sensor : SDL_Sensor)
    (l : List (Nat × SceMotionSensorState F)) :
    ∀ hw : sensor_hwdata,
      List.Pairwise (fun a b => a < b)
        ((acceptedSamples fo sensor hw l).map (fun s => s.2.counter)) := by
  induction l with
  | nil => intro hw; simp [acceptedSamples]
  | cons s l ih =>
    intro hw
    unfold acceptedSamples
    by_cases h : hw.counter < s.2.counter
    · rw [if_pos h, List.map_cons, List.pairwise_cons]
      refine ⟨?_, ih _⟩
      intro c hc
      rw [List.mem_map] at hc
      obtain ⟨x, hx, rfl⟩ := hc
      have := acceptedSamples_gt fo sensor l _ x hx
      have hc := updateSample_counter fo s.1 sensor.instance_id sensor.type hw s.2
      simp only [sampleResult] at this
      omega
    · rw [if_neg h]
      exact ih _

/-- One step keeps the tick invariant when the accumulator does not wrap. -/
theorem updateSample_tick_invariant {F : Type} (fo : FloatOps F) (timestamp id : Nat)
    (type : SDL_SensorType) (hw : sensor_hwdata) (m : SceMotionSensorState F)
    (hinv : hw.sensor_timestamp % 1000 = 0 ∧ (hw.sensor_timestamp / 1000) % 2 ^ 32 = hw.last_tick)
    (htick : m.timestamp < 2 ^ 32)
    (hfit : hw.counter < m.counter →
      hw.sensor_timestamp + SDL_US_TO_NS (delta hw.last_tick m.timestamp) < 2 ^ 64) :
    (updateSample fo timestamp id type hw m).1.sensor_timestamp % 1000 = 0
    ∧ ((updateSample fo timestamp id type hw m).1.sensor_timestamp / 1000) % 2 ^ 32
        = (updateSample fo timestamp id type hw m).1.last_tick := by
  by_cases h : hw.counter < m.counter
  · have hf := hfit h
    rw [updateSample_accepted fo timestamp id type hw m h]
    simp only []
    rw [Nat.mod_eq_of_lt hf, SDL_US_TO_NS_delta]
    obtain ⟨h1, h2⟩ := hinv
    rw [two_pow_32] at htick h2 ⊢
    have hd : delta hw.last_tick m.timestamp
        = (m.timestamp + 4294967296 - hw.last_tick) % 4294967296 := by
      unfold delta add32 sub32 SDL_MAX_UINT32
      rw [two_pow_32]
      split <;> omega
    rw [hd]
    omega
  · rw [updateSample_rejected fo timestamp id type hw m h]
    exact hinv

/-- The tick invariant holds after every prefix of a run in which the accumulator does
not wrap and all raw ticks are unsigned 32-bit values. -/
theorem stateAfter_tick_invariant {F : Type} (fo : FloatOps F) (sensor : SDL_Sensor)
    (pre : List (Nat × SceMotionSensorState F)) :
    ∀ (hw : sensor_hwdata) (rest : List (Nat × SceMotionSensorState F)),
      (hw.sensor_timestamp % 1000 = 0 ∧ (hw.sensor_timestamp / 1000) % 2 ^ 32 = hw.last_tick) →
      (∀ s ∈ pre ++ rest, s.2.timestamp < 2 ^ 32) →
      accumulatorFits fo sensor hw (pre ++ rest) = true →
      (stateAfter fo sensor hw pre).sensor_timestamp % 1000 = 0
      ∧ ((stateAfter fo sensor hw pre).sensor_timestamp / 1000) % 2 ^ 32
          = (stateAfter fo sensor hw pre).last_tick := by
  induction pre with
  | nil => intro hw rest hinv _ _; exact hinv
  | cons s pre ih =>
    intro hw rest hinv hticks hfits
    rw [stateAfter_cons]
    rw [List.cons_append, accumulatorFits, Bool.and_eq_true] at hfits
    apply ih _ rest
    · apply updateSample_tick_invariant fo s.1 sensor.instance_id sensor.type hw s.2 hinv
      · exact hticks s (by simp)
      · intro h
        have := hfits.1
        rw [if_pos h] at this
        exact of_decide_eq_true this
    · intro q hq
      exact hticks q (by simp only [List.cons_append, List.mem_cons]; exact Or.inr hq)
    · exact hfits.2

/-- While no sample is accepted the runtime state stays as it was. -/
theorem stateAfter_none_accepted {F : Type} (fo : FloatOps F) (sensor : SDL_Sensor)
    (l : List (Nat × SceMotionSensorState F)) :
    ∀ hw : sensor_hwdata, acceptedSamples fo sensor hw l = [] →
      stateAfter fo sensor hw l = hw := by
  induction l with
  | nil => intro hw _; rfl
  | cons s l ih =>
    intro hw h
    unfold acceptedSamples at h
    by_cases hc : hw.counter < s.2.counter
    · rw [if_pos hc] at h
      simp at h
    · rw [if_neg hc] at h
      have hs : (sampleResult fo sensor hw s).1 = hw := by
        simp only [sampleResult]
        rw [updateSample_rejected fo s.1 sensor.instance_id sensor.type hw s.2 hc]
      rw [stateAfter_cons, hs]
      rw [hs] at h
      exact ih hw h

/-! ## The claims -/

/-- Claim C1: for a sensor of type accelerometer or gyroscope, any initial stored counter
`hw0.counter` and any sequence of update calls, cut the processed samples at any sample
`s` (`pre` before it, `post` after it). The loop body sends exactly one event for `s`
if and only if the counter of `s` is strictly greater than the initial stored counter and
than the counter of every sample processed before it, and sends none otherwise; the
events of the whole run are those of `pre`, of `s` and of `post`, in this order. -/
theorem event_iff_counter_exceeds_all_before {F : Type} (fo : FloatOps F)
    (sensor : SDL_Sensor) (hw0 : sensor_hwdata) (hopen : sensor.hwdata = some hw0)
    (htype : sensor.type = SDL_SENSOR_ACCEL ∨ sensor.type = SDL_SENSOR_GYRO)
    (calls : List (UpdateCall F))
    (pre : List (Nat × SceMotionSensorState F)) (s : Nat × SceMotionSensorState F)
    (post : List (Nat × SceMotionSensorState F))
    (hsplit : processed fo calls = pre ++ s :: post) :
    ((sampleResult fo sensor (stateAfter fo sensor hw0 pre) s).2.length = 1
      ↔ (hw0.counter < s.2.counter ∧ ∀ p ∈ pre, p.2.counter < s.2.counter))
    ∧ ((sampleResult fo sensor (stateAfter fo sensor hw0 pre) s).2 = []
      ↔ ¬ (hw0.counter < s.2.counter ∧ ∀ p ∈ pre, p.2.counter < s.2.counter))
    ∧ (runUpdates fo sensor calls).map (fun r => r.2)
        = some (eventsAfter fo sensor hw0 pre
            ++ (sampleResult fo sensor (stateAfter fo sensor hw0 pre) s).2
            ++ eventsAfter fo sensor
                (sampleResult fo sensor (stateAfter fo sensor hw0 pre) s).1 post) := by
  have hc := runSamples_counter_lt fo sensor.instance_id sensor.type s.2.counter pre (hw0, [])
  have he := updateSample_events fo s.1 sensor.instance_id sensor.type htype
    (runSamples fo sensor.instance_id sensor.type (hw0, []) pre).1 s.2
  refine ⟨?_, ?_, ?_⟩
  · simp only [sampleResult, stateAfter]
    rw [he.1, hc]
  · simp only [sampleResult, stateAfter]
    rw [he.2, hc]
  · rw [runUpdates_split fo sensor hw0 hopen calls pre s post hsplit]
    rfl

/-- Claim C1 at a concrete input: one update call whose buffer starts with the counters
1 and 2; the sample with counter 2 is cut out and sends exactly one event. -/
theorem event_iff_counter_exceeds_all_before_witness :
    processed fixedOps
        [⟨5, ⟨0, [⟨⟨100000, 0, 0⟩, ⟨1, 2, 3⟩, 7, 1⟩, ⟨⟨0, 100000, 0⟩, ⟨4, 5, 6⟩, 9, 2⟩]⟩⟩]
      = [(5, ⟨⟨100000, 0, 0⟩, ⟨1, 2, 3⟩, 7, 1⟩)]
          ++ (5, ⟨⟨0, 100000, 0⟩, ⟨4, 5, 6⟩, 9, 2⟩)
            :: List.replicate 62 (5, zeroState fixedOps)
    ∧ ((sampleResult fixedOps ⟨1, SDL_SENSOR_ACCEL, some ⟨0, 0, 0⟩⟩
          (stateAfter fixedOps ⟨1, SDL_SENSOR_ACCEL, some ⟨0, 0, 0⟩⟩ ⟨0, 0, 0⟩
            [(5, ⟨⟨100000, 0, 0⟩, ⟨1, 2, 3⟩, 7, 1⟩)])
          (5, ⟨⟨0, 100000, 0⟩, ⟨4, 5, 6⟩, 9, 2⟩)).2.length = 1
        ↔ ((0 : Nat) < 2
            ∧ ∀ p ∈ [((5 : Nat),
                (⟨⟨100000, 0, 0⟩, ⟨1, 2, 3⟩, 7, 1⟩ : SceMotionSensorState Int))],
              p.2.counter < 2)) :=
  ⟨by decide,
   (event_iff_counter_exceeds_all_before fixedOps ⟨1, SDL_SENSOR_ACCEL, some ⟨0, 0, 0⟩⟩
      ⟨0, 0, 0⟩ rfl (Or.inl rfl)
      [⟨5, ⟨0, [⟨⟨100000, 0, 0⟩, ⟨1, 2, 3⟩, 7, 1⟩, ⟨⟨0, 100000, 0⟩, ⟨4, 5, 6⟩, 9, 2⟩]⟩⟩]
      [(5, ⟨⟨100000, 0, 0⟩, ⟨1, 2, 3⟩, 7, 1⟩)]
      (5, ⟨⟨0, 100000, 0⟩, ⟨4, 5, 6⟩, 9, 2⟩)
      (List.replicate 62 (5, zeroState fixedOps))
      (by decide)).1⟩

/-- Claim C2, refuted as stated: a freshly opened accelerometer is polled 4294967 times,
each poll delivering one new sample whose tick lies `2^32 - 1` ticks after the previous
one; the accumulated timestamp is then 18446742798104265000. The next poll delivers one
more such sample, which is accepted, and the unsigned 64-bit accumulator wraps: the
accumulated timestamp after that sample is 3019362008384, smaller than before it. -/
theorem timestamp_decreases_when_accumulator_wraps :
    (runUpdates fixedOps ⟨1, SDL_SENSOR_ACCEL, some ⟨0, 0, 0⟩⟩ (descendingCalls 4294967)).map
        (fun r => r.1.hwdata)
      = some (some ⟨4294967, 4290672329, 18446742798104265000⟩)
    ∧ (runUpdates fixedOps ⟨1, SDL_SENSOR_ACCEL, some ⟨0, 0, 0⟩⟩ (descendingCalls 4294968)).map
        (fun r => r.1.hwdata)
      = some (some ⟨4294968, 4290672328, 3019362008384⟩)
    ∧ updateSample fixedOps 0 1 SDL_SENSOR_ACCEL ⟨4294967, 4290672329, 18446742798104265000⟩
        ⟨⟨0, 0, 0⟩, ⟨0, 0, 0⟩, 4290672328, 4294968⟩
      = (⟨4294968, 4290672328, 3019362008384⟩,
          [⟨0, 1, 3019362008384, [0, 0, 0]⟩])
    ∧ ¬ ((18446742798104265000 : Nat) ≤ 3019362008384) := by
  refine ⟨?_, ?_, ?_, by norm_num⟩
  · rw [runUpdates_open fixedOps _ _ _ rfl]
    simp only [Option.map_some']
    rw [runSamples_descendingCalls 1 SDL_SENSOR_ACCEL 4294967 (by norm_num)]
  · rw [runUpdates_open fixedOps _ _ _ rfl]
    simp only [Option.map_some']
    rw [runSamples_descendingCalls 1 SDL_SENSOR_ACCEL 4294968 (by norm_num)]
  · decide

/-- Claim C2, amended: for every open sensor and every sequence of update calls, cut at
any accepted sample `s`: the accumulated timestamp after `s` is the value before it plus
1000 times the tick delta, modulo `2^64`; hence it is greater than or equal to the value
before `s` whenever that sum does not exceed the unsigned 64-bit range, also when the
raw tick of `s` is smaller than the stored last tick. -/
theorem timestamp_nondecreasing_unless_wrap {F : Type} (fo : FloatOps F)
    (sensor : SDL_Sensor) (hw0 : sensor_hwdata) (hopen : sensor.hwdata = some hw0)
    (calls : List (UpdateCall F))
    (pre : List (Nat × SceMotionSensorState F)) (s : Nat × SceMotionSensorState F)
    (post : List (Nat × SceMotionSensorState F))
    (hsplit : processed fo calls = pre ++ s :: post)
    (haccepted : (stateAfter fo sensor hw0 pre).counter < s.2.counter) :
    (runUpdates fo sensor calls).map (fun r => r.1.hwdata)
      = some (some (stateAfter fo sensor
          (sampleResult fo sensor (stateAfter fo sensor hw0 pre) s).1 post))
    ∧ (sampleResult fo sensor (stateAfter fo sensor hw0 pre) s).1.sensor_timestamp
      = ((stateAfter fo sensor hw0 pre).sensor_timestamp
          + 1000 * delta (stateAfter fo sensor hw0 pre).last_tick s.2.timestamp) % 2 ^ 64
    ∧ ((stateAfter fo sensor hw0 pre).sensor_timestamp
          + 1000 * delta (stateAfter fo sensor hw0 pre).last_tick s.2.timestamp < 2 ^ 64 →
        (stateAfter fo sensor hw0 pre).sensor_timestamp
          ≤ (sampleResult fo sensor (stateAfter fo sensor hw0 pre) s).1.sensor_timestamp) := by
  have key : (sampleResult fo sensor (stateAfter fo sensor hw0 pre) s).1.sensor_timestamp
      = ((stateAfter fo sensor hw0 pre).sensor_timestamp
          + 1000 * delta (stateAfter fo sensor hw0 pre).last_tick s.2.timestamp)
        % 2 ^ 64 := by
    unfold sampleResult updateSample
    rw [if_pos haccepted]
    cases sensor.type <;> simp only [SDL_US_TO_NS_delta]
  refine ⟨?_, key, fun h => ?_⟩
  · rw [runUpdates_split fo sensor hw0 hopen calls pre s post hsplit]
    rfl
  · rw [key, Nat.mod_eq_of_lt h]
    omega

/-- Claim C2, amended, at a concrete input: the stored last tick is 0xFFFFFFF0 and the
accepted sample's raw tick is 0x10 (it wrapped); the timestamp grows from 5000 to 37000. -/
theorem timestamp_nondecreasing_unless_wrap_witness :
    processed fixedOps [⟨5, ⟨0, [⟨⟨0, 0, 0⟩, ⟨0, 0, 0⟩, 16, 4⟩]⟩⟩]
      = [] ++ (5, ⟨⟨0, 0, 0⟩, ⟨0, 0, 0⟩, 16, 4⟩) :: List.replicate 63 (5, zeroState fixedOps)
    ∧ (5000 : Nat)
      ≤ (sampleResult fixedOps ⟨1, SDL_SENSOR_GYRO, some ⟨3, 4294967280, 5000⟩⟩
          ⟨3, 4294967280, 5000⟩ (5, ⟨⟨0, 0, 0⟩, ⟨0, 0, 0⟩, 16, 4⟩)).1.sensor_timestamp :=
  ⟨by decide,
   (timestamp_nondecreasing_unless_wrap fixedOps
      ⟨1, SDL_SENSOR_GYRO, some ⟨3, 4294967280, 5000⟩⟩ ⟨3, 4294967280, 5000⟩ rfl
      [⟨5, ⟨0, [⟨⟨0, 0, 0⟩, ⟨0, 0, 0⟩, 16, 4⟩]⟩⟩]
      [] (5, ⟨⟨0, 0, 0⟩, ⟨0, 0, 0⟩, 16, 4⟩) (List.replicate 63 (5, zeroState fixedOps))
      (by decide) (by decide)).2.2 (by decide)⟩

/-- Claim C3: for all unsigned 32-bit values `lastTick` and `tick`, the delta computed by
update equals `(tick - lastTick)` modulo `2^32`; when `lastTick > tick` it is
`(SDL_MAX_UINT32 - lastTick) + tick + 1` and no intermediate result leaves the unsigned
32-bit range, otherwise it is `tick - lastTick`; and `lastTick = 0xFFFFFFF0`,
`tick = 0x00000010` give `0x20`. -/
theorem delta_is_difference_mod_2_32 (lastTick tick : Nat) (h1 : lastTick < 2 ^ 32)
    (h2 : tick < 2 ^ 32) :
    ((delta lastTick tick : Nat) : Int) = ((tick : Int) - (lastTick : Int)) % 2 ^ 32
    ∧ (lastTick > tick →
        lastTick ≤ SDL_MAX_UINT32
        ∧ SDL_MAX_UINT32 - lastTick + tick < 2 ^ 32
        ∧ SDL_MAX_UINT32 - lastTick + tick + 1 < 2 ^ 32
        ∧ delta lastTick tick = (SDL_MAX_UINT32 - lastTick) + tick + 1)
    ∧ (¬ lastTick > tick → delta lastTick tick = tick - lastTick)
    ∧ delta 0xFFFFFFF0 0x00000010 = 0x20 := by
  rw [two_pow_32] at h1 h2
  have e : (2 : Int) ^ 32 = 4294967296 := by norm_num
  refine ⟨?_, ?_, ?_, by decide⟩
  · unfold delta add32 sub32 SDL_MAX_UINT32
    rw [two_pow_32, e]
    split <;> omega
  · intro h
    unfold delta add32 sub32 SDL_MAX_UINT32
    rw [two_pow_32, if_pos h]
    omega
  · intro h
    unfold delta add32 sub32 SDL_MAX_UINT32
    rw [two_pow_32, if_neg h]
    omega

/-- Claim C3 at `lastTick = 0xFFFFFFF0`, `tick = 0x00000010`: the wrapped branch is taken
and gives 32. -/
theorem delta_is_difference_mod_2_32_witness :
    (0xFFFFFFF0 : Nat) < 2 ^ 32 ∧ (0x00000010 : Nat) < 2 ^ 32
    ∧ (0xFFFFFFF0 : Nat) > 0x00000010
    ∧ delta 0xFFFFFFF0 0x00000010 = (SDL_MAX_UINT32 - 0xFFFFFFF0) + 0x00000010 + 1
    ∧ (SDL_MAX_UINT32 - 0xFFFFFFF0) + 0x00000010 + 1 = 32 :=
  ⟨by norm_num, by norm_num, by norm_num,
   ((delta_is_difference_mod_2_32 0xFFFFFFF0 0x00000010 (by norm_num) (by norm_num)).2.1
      (by norm_num)).2.2.2,
   by decide⟩

/-- Claim C4: for every accepted sample the values of the event are, in x, y, z order:
for an accelerometer the sample's accelerometer axes each multiplied by
`SDL_STANDARD_GRAVITY`, for a gyroscope the sample's gyro axes unchanged. When
multiplying the `float` value `one` by `SDL_STANDARD_GRAVITY` gives
`SDL_STANDARD_GRAVITY` (as for `1.0f`), accelerometer axes equal to `one` are sent as
`SDL_STANDARD_GRAVITY`. -/
theorem emitted_values_by_sensor_type {F : Type} (fo : FloatOps F) (timestamp id : Nat)
    (hw : sensor_hwdata) (m : SceMotionSensorState F) (haccepted : hw.counter < m.counter) :
    (updateSample fo timestamp id SDL_SENSOR_ACCEL hw m).2.map (fun e => e.data)
      = [[fo.mul m.accelerometer.x fo.SDL_STANDARD_GRAVITY,
          fo.mul m.accelerometer.y fo.SDL_STANDARD_GRAVITY,
          fo.mul m.accelerometer.z fo.SDL_STANDARD_GRAVITY]]
    ∧ (updateSample fo timestamp id SDL_SENSOR_GYRO hw m).2.map (fun e => e.data)
      = [[m.gyro.x, m.gyro.y, m.gyro.z]]
    ∧ ∀ one : F, fo.mul one fo.SDL_STANDARD_GRAVITY = fo.SDL_STANDARD_GRAVITY →
        m.accelerometer.x = one → m.accelerometer.y = one → m.accelerometer.z = one →
        (updateSample fo timestamp id SDL_SENSOR_ACCEL hw m).2.map (fun e => e.data)
          = [[fo.SDL_STANDARD_GRAVITY, fo.SDL_STANDARD_GRAVITY, fo.SDL_STANDARD_GRAVITY]] := by
  refine ⟨?_, ?_, ?_⟩
  · simp [updateSample, haccepted]
  · simp [updateSample, haccepted]
  · intro one hone hx hy hz
    simp [updateSample, haccepted, hx, hy, hz, hone]

/-- Claim C4 at a concrete input, in five-decimal fixed point: the axes 1.0, 2.0, 3.0
are sent as 9.80665, 19.6133, 29.41995 by an accelerometer, and the gyro axes 1, 2, 3
unchanged by a gyroscope; the axes 1.0, 1.0, 1.0 are sent as 9.80665 each. -/
theorem emitted_values_by_sensor_type_witness :
    (0 : Nat) < 1
    ∧ (updateSample fixedOps 5 1 SDL_SENSOR_ACCEL ⟨0, 0, 0⟩
        ⟨⟨100000, 200000, 300000⟩, ⟨1, 2, 3⟩, 7, 1⟩).2.map (fun e => e.data)
      = [[980665, 1961330, 2941995]]
    ∧ (updateSample fixedOps 5 1 SDL_SENSOR_GYRO ⟨0, 0, 0⟩
        ⟨⟨100000, 200000, 300000⟩, ⟨1, 2, 3⟩, 7, 1⟩).2.map (fun e => e.data)
      = [[1, 2, 3]]
    ∧ (updateSample fixedOps 5 1 SDL_SENSOR_ACCEL ⟨0, 0, 0⟩
        ⟨⟨100000, 100000, 100000⟩, ⟨1, 2, 3⟩, 7, 1⟩).2.map (fun e => e.data)
      = [[980665, 980665, 980665]] :=
  ⟨by decide,
   (emitted_values_by_sensor_type fixedOps 5 1 ⟨0, 0, 0⟩
      ⟨⟨100000, 200000, 300000⟩, ⟨1, 2, 3⟩, 7, 1⟩ (by decide)).1,
   (emitted_values_by_sensor_type fixedOps 5 1 ⟨0, 0, 0⟩
      ⟨⟨100000, 200000, 300000⟩, ⟨1, 2, 3⟩, 7, 1⟩ (by decide)).2.1,
   (emitted_values_by_sensor_type fixedOps 5 1 ⟨0, 0, 0⟩
      ⟨⟨100000, 100000, 100000⟩, ⟨1, 2, 3⟩, 7, 1⟩ (by decide)).2.2
      100000 (by decide) rfl rfl rfl⟩

/-- Claim C5: after a successful init, the name, type and instance id looked up at index
0 are "Accelerometer", `SDL_SENSOR_ACCEL` and the first identifier drawn by init, at
index 1 they are "Gyro", `SDL_SENSOR_GYRO` and the second identifier drawn; the three
values at index 0 differ from those at index 1; and for every index `>= 2` the four
lookups return `NULL`, `SDL_SENSOR_INVALID`, `-1` and `-1` (as `SDL_SensorID`) without
reading the descriptor table. -/
theorem lookups_after_init (hw : MotionInitStatus) (callocOk : Bool) (last_id : Nat)
    (d : Driver) (hok : (SDL_VITA_SensorInit hw callocOk last_id d).1 = true) :
    (SDL_VITA_SensorGetDeviceName (SDL_VITA_SensorInit hw callocOk last_id d).2.1 0
        = ⟨[0], some (some "Accelerometer")⟩
      ∧ SDL_VITA_SensorGetDeviceType (SDL_VITA_SensorInit hw callocOk last_id d).2.1 0
        = ⟨[0], some SDL_SENSOR_ACCEL⟩
      ∧ SDL_VITA_SensorGetDeviceInstanceID (SDL_VITA_SensorInit hw callocOk last_id d).2.1 0
        = ⟨[0], some (SDL_GetNextObjectID last_id).1⟩)
    ∧ (SDL_VITA_SensorGetDeviceName (SDL_VITA_SensorInit hw callocOk last_id d).2.1 1
        = ⟨[1], some (some "Gyro")⟩
      ∧ SDL_VITA_SensorGetDeviceType (SDL_VITA_SensorInit hw callocOk last_id d).2.1 1
        = ⟨[1], some SDL_SENSOR_GYRO⟩
      ∧ SDL_VITA_SensorGetDeviceInstanceID (SDL_VITA_SensorInit hw callocOk last_id d).2.1 1
        = ⟨[1], some (SDL_GetNextObjectID (SDL_GetNextObjectID last_id).2).1⟩)
    ∧ ((SDL_VITA_SensorGetDeviceName (SDL_VITA_SensorInit hw callocOk last_id d).2.1 0).value
        ≠ (SDL_VITA_SensorGetDeviceName (SDL_VITA_SensorInit hw callocOk last_id d).2.1 1).value
      ∧ (SDL_VITA_SensorGetDeviceType (SDL_VITA_SensorInit hw callocOk last_id d).2.1 0).value
        ≠ (SDL_VITA_SensorGetDeviceType (SDL_VITA_SensorInit hw callocOk last_id d).2.1 1).value
      ∧ (SDL_VITA_SensorGetDeviceInstanceID
            (SDL_VITA_SensorInit hw callocOk last_id d).2.1 0).value
        ≠ (SDL_VITA_SensorGetDeviceInstanceID
            (SDL_VITA_SensorInit hw callocOk last_id d).2.1 1).value)
    ∧ ∀ (device_index : Int) (enc : SDL_SensorType → Int), 2 ≤ device_index →
        SDL_VITA_SensorGetDeviceName (SDL_VITA_SensorInit hw callocOk last_id d).2.1
            device_index = ⟨[], some none⟩
        ∧ SDL_VITA_SensorGetDeviceType (SDL_VITA_SensorInit hw callocOk last_id d).2.1
            device_index = ⟨[], some SDL_SENSOR_INVALID⟩
        ∧ SDL_VITA_SensorGetDeviceNonPortableType enc
            (SDL_VITA_SensorInit hw callocOk last_id d).2.1 device_index = ⟨[], some (-1)⟩
        ∧ SDL_VITA_SensorGetDeviceInstanceID (SDL_VITA_SensorInit hw callocOk last_id d).2.1
            device_index = ⟨[], some (toSensorID (-1))⟩ := by
  rw [SDL_VITA_SensorInit_eq] at hok ⊢
  cases callocOk
  · simp at hok
  · simp only [if_true]
    refine ⟨⟨rfl, rfl, rfl⟩, ⟨rfl, rfl, rfl⟩, ⟨?_, ?_, ?_⟩, ?_⟩
    · simp [SDL_VITA_SensorGetDeviceName, readSensor]
    · simp [SDL_VITA_SensorGetDeviceType, readSensor]
    · simp [SDL_VITA_SensorGetDeviceInstanceID, readSensor]
    · intro device_index enc h
      have hlt : ¬ device_index < 2 := by omega
      simp [SDL_VITA_SensorGetDeviceName, SDL_VITA_SensorGetDeviceType,
        SDL_VITA_SensorGetDeviceNonPortableType, SDL_VITA_SensorGetDeviceInstanceID, hlt]

/-- Claim C5 at a concrete input: init from the initial driver state with the generator at
10; the instance ids are 11 and 12, and index 2 gives the failure value 4294967295. -/
theorem lookups_after_init_witness :
    (SDL_VITA_SensorInit ⟨0, 0, 0, 0, 0⟩ true 10 Driver.initial).1 = true
    ∧ SDL_VITA_SensorGetDeviceInstanceID
        (SDL_VITA_SensorInit ⟨0, 0, 0, 0, 0⟩ true 10 Driver.initial).2.1 0 = ⟨[0], some 11⟩
    ∧ SDL_VITA_SensorGetDeviceInstanceID
        (SDL_VITA_SensorInit ⟨0, 0, 0, 0, 0⟩ true 10 Driver.initial).2.1 1 = ⟨[1], some 12⟩
    ∧ SDL_VITA_SensorGetDeviceInstanceID
        (SDL_VITA_SensorInit ⟨0, 0, 0, 0, 0⟩ true 10 Driver.initial).2.1 2
        = ⟨[], some 4294967295⟩ :=
  ⟨by decide,
   (lookups_after_init ⟨0, 0, 0, 0, 0⟩ true 10 Driver.initial (by decide)).1.2.2,
   (lookups_after_init ⟨0, 0, 0, 0, 0⟩ true 10 Driver.initial (by decide)).2.1.2.2,
   ((lookups_after_init ⟨0, 0, 0, 0, 0⟩ true 10 Driver.initial (by decide)).2.2.2
      2 (fun _ => 0) (by decide)).2.2.2⟩

/-- Claim C6: `SDL_VITA_SensorGetCount` returns 0 in the initial driver state and 2 after
an init call that returned true. -/
theorem count_initial_and_after_init :
    SDL_VITA_SensorGetCount Driver.initial = 0
    ∧ ∀ (hw : MotionInitStatus) (callocOk : Bool) (last_id : Nat) (d : Driver),
        (SDL_VITA_SensorInit hw callocOk last_id d).1 = true →
        SDL_VITA_SensorGetCount (SDL_VITA_SensorInit hw callocOk last_id d).2.1 = 2 := by
  refine ⟨rfl, ?_⟩
  intro hw callocOk last_id d _
  rw [SDL_VITA_SensorInit_eq]
  cases callocOk <;> rfl

/-- Claim C6 at a concrete input: init from the initial driver state succeeds and the
count is 2 afterwards. -/
theorem count_initial_and_after_init_witness :
    (SDL_VITA_SensorInit ⟨0, 0, 0, 0, 0⟩ true 0 Driver.initial).1 = true
    ∧ SDL_VITA_SensorGetCount
        (SDL_VITA_SensorInit ⟨0, 0, 0, 0, 0⟩ true 0 Driver.initial).2.1 = 2 :=
  ⟨by decide,
   count_initial_and_after_init.2 ⟨0, 0, 0, 0, 0⟩ true 0 Driver.initial (by decide)⟩

/-- Claim C7, the code at the failing input: init from the initial driver state with a
failing descriptor-table allocation returns false and leaves the table null, but the
count it set before allocating stays: `SDL_VITA_SensorGetCount` returns 2, and the name
lookup at index 0 passes its bound check and reads position 0 of the null table. -/
theorem count_after_failed_init :
    SDL_VITA_SensorInit ⟨0, 0, 0, 0, 0⟩ false 0 Driver.initial = (false, ⟨none, 2⟩, 0)
    ∧ SDL_VITA_SensorGetCount
        (SDL_VITA_SensorInit ⟨0, 0, 0, 0, 0⟩ false 0 Driver.initial).2.1 = 2
    ∧ SDL_VITA_SensorGetDeviceName
        (SDL_VITA_SensorInit ⟨0, 0, 0, 0, 0⟩ false 0 Driver.initial).2.1 0 = ⟨[0], none⟩ := by
  decide

/-- Claim C8, refuted as stated: the start-sampling call reports the failure status -1,
the descriptor-table allocation succeeds, and init returns true. -/
theorem init_succeeds_despite_failed_sampling :
    MotionInitStatus.failed ⟨0, -1, 0, 0, 0⟩ = true
    ∧ (SDL_VITA_SensorInit ⟨0, -1, 0, 0, 0⟩ true 0 Driver.initial).1 = true := by
  decide

/-- Claim C8, amended: init fails exactly when the descriptor-table allocation fails,
whatever statuses the calls of the sampling set-up report. -/
theorem init_fails_iff_allocation_fails (hw : MotionInitStatus) (callocOk : Bool)
    (last_id : Nat) (d : Driver) :
    (SDL_VITA_SensorInit hw callocOk last_id d).1 = callocOk := by
  rw [SDL_VITA_SensorInit_eq]
  cases callocOk <;> rfl

/-- Claim C9, refuted as stated: after a successful init the count is 2, and open with
index 2 and a successful allocation returns true and attaches a runtime state. -/
theorem open_succeeds_for_invalid_index :
    SDL_VITA_SensorGetCount (SDL_VITA_SensorInit ⟨0, 0, 0, 0, 0⟩ true 0 Driver.initial).2.1 = 2
    ∧ SDL_VITA_SensorOpen true ⟨3, SDL_SENSOR_UNKNOWN, none⟩ 2
        = (true, ⟨3, SDL_SENSOR_UNKNOWN, some ⟨0, 0, 0⟩⟩) := by
  decide

/-- Claim C9, amended: open does not look at the index. It fails exactly when the
allocation of the runtime state fails, and then leaves the sensor as it was; with a
successful allocation it succeeds for every index and the new runtime state has
`counter = 0`, `last_tick = 0` and `sensor_timestamp = 0`. -/
theorem open_ignores_index (callocOk : Bool) (sensor : SDL_Sensor) (device_index : Int) :
    SDL_VITA_SensorOpen callocOk sensor device_index
      = if callocOk then (true, ⟨sensor.instance_id, sensor.type, some ⟨0, 0, 0⟩⟩)
        else (false, sensor) := by
  cases callocOk <;> rfl

/-- Claim C10: for every sensor state, when the poll of an update call reports a non-zero
status, the call sends no event and leaves the sensor, its runtime state included, as it
was. -/
theorem update_poll_error_no_effect {F : Type} (fo : FloatOps F) (timestamp : Nat)
    (p : MotionPoll F) (sensor : SDL_Sensor) (herr : p.err ≠ 0) :
    SDL_VITA_SensorUpdate fo timestamp p sensor = some (sensor, []) :=
  update_failed fo timestamp p sensor herr

/-- Claim C10 at a concrete input: the poll reports -1 although it has a fresh sample. -/
theorem update_poll_error_no_effect_witness :
    (-1 : Int) ≠ 0
    ∧ SDL_VITA_SensorUpdate fixedOps 5 ⟨-1, [⟨⟨100000, 0, 0⟩, ⟨1, 2, 3⟩, 7, 9⟩]⟩
        ⟨1, SDL_SENSOR_ACCEL, some ⟨3, 4, 5000⟩⟩
      = some (⟨1, SDL_SENSOR_ACCEL, some ⟨3, 4, 5000⟩⟩, []) :=
  ⟨by decide,
   update_poll_error_no_effect fixedOps 5 ⟨-1, [⟨⟨100000, 0, 0⟩, ⟨1, 2, 3⟩, 7, 9⟩]⟩
     ⟨1, SDL_SENSOR_ACCEL, some ⟨3, 4, 5000⟩⟩ (by decide)⟩

set_option maxRecDepth 65536

/-- Claim C11: for every runtime state, an update call whose poll succeeds and whose
buffer entries all have a counter less than or equal to the stored counter sends no
event and leaves the sensor, with `counter`, `last_tick` and `sensor_timestamp`, as it
was. In particular a freshly opened sensor polled with no available record: the zeroed
64-entry buffer is left as `SDL_zero` made it, nothing is sent and nothing changes. -/
theorem update_without_new_samples {F : Type} (fo : FloatOps F) (timestamp : Nat)
    (p : MotionPoll F) (sensor : SDL_Sensor) (hw : sensor_hwdata)
    (hopen : sensor.hwdata = some hw) (herr : p.err = 0)
    (hold : ∀ m ∈ motionBuffer fo p, m.counter ≤ hw.counter) :
    SDL_VITA_SensorUpdate fo timestamp p sensor = some (sensor, [])
    ∧ motionBuffer fo ⟨0, []⟩ = SDL_zero fo
    ∧ SDL_VITA_SensorUpdate fo timestamp ⟨0, []⟩
          (SDL_VITA_SensorOpen true ⟨sensor.instance_id, sensor.type, none⟩ 0).2
        = some (⟨sensor.instance_id, sensor.type, some ⟨0, 0, 0⟩⟩, []) := by
  refine ⟨update_all_old fo timestamp p sensor hw hopen herr hold,
    motionBuffer_no_records fo 0, ?_⟩
  apply update_all_old fo timestamp ⟨0, []⟩ _ ⟨0, 0, 0⟩ rfl rfl
  intro m hm
  rw [motionBuffer_no_records, SDL_zero, List.mem_replicate] at hm
  rw [hm.2]
  simp [zeroState]

/-- Claim C11 at a concrete input: the stored counter is 3 and the poll delivers the
counters 2 and 3 again. -/
theorem update_without_new_samples_witness :
    SDL_VITA_SensorUpdate fixedOps 5
        ⟨0, [⟨⟨100000, 0, 0⟩, ⟨1, 2, 3⟩, 7, 2⟩, ⟨⟨100000, 0, 0⟩, ⟨1, 2, 3⟩, 9, 3⟩]⟩
        ⟨1, SDL_SENSOR_ACCEL, some ⟨3, 9, 9000⟩⟩
      = some (⟨1, SDL_SENSOR_ACCEL, some ⟨3, 9, 9000⟩⟩, []) :=
  (update_without_new_samples fixedOps 5
    ⟨0, [⟨⟨100000, 0, 0⟩, ⟨1, 2, 3⟩, 7, 2⟩, ⟨⟨100000, 0, 0⟩, ⟨1, 2, 3⟩, 9, 3⟩]⟩
    ⟨1, SDL_SENSOR_ACCEL, some ⟨3, 9, 9000⟩⟩ ⟨3, 9, 9000⟩ rfl rfl (by decide)).1

/-- Claim C12: for every runtime state and every accepted sample, the loop body sets
`counter` to the sample's counter, `last_tick` to the sample's tick and
`sensor_timestamp` to its old value plus `delta * 1000` modulo `2^64`, where the product
is exact (delta is widened before the multiplication, nothing is lost to 32 bits) and
delta is the difference of the sample's tick and the old `last_tick` modulo `2^32`. -/
theorem accepted_sample_state {F : Type} (fo : FloatOps F) (timestamp id : Nat)
    (type : SDL_SensorType) (hw : sensor_hwdata) (m : SceMotionSensorState F)
    (haccepted : hw.counter < m.counter) :
    (updateSample fo timestamp id type hw m).1
      = ⟨m.counter, m.timestamp,
          (hw.sensor_timestamp + delta hw.last_tick m.timestamp * 1000) % 2 ^ 64⟩
    ∧ SDL_US_TO_NS (delta hw.last_tick m.timestamp) = delta hw.last_tick m.timestamp * 1000
    ∧ (hw.last_tick < 2 ^ 32 → m.timestamp < 2 ^ 32 →
        ((delta hw.last_tick m.timestamp : Nat) : Int)
          = ((m.timestamp : Int) - (hw.last_tick : Int)) % 2 ^ 32) := by
  refine ⟨?_, ?_, ?_⟩
  · rw [updateSample_accepted fo timestamp id type hw m haccepted, SDL_US_TO_NS_delta,
      Nat.mul_comm]
  · rw [SDL_US_TO_NS_delta, Nat.mul_comm]
  · intro h1 h2
    rw [two_pow_32] at h1 h2
    have e : (2 : Int) ^ 32 = 4294967296 := by norm_num
    unfold delta add32 sub32 SDL_MAX_UINT32
    rw [two_pow_32, e]
    split <;> omega

/-- Claim C12 at a concrete input: stored state (3, 0xFFFFFFF0, 5000), accepted sample with
counter 4 and tick 0x10: delta is 32 and the new state is (4, 16, 37000); and a delta of
`2^32 - 1` ticks adds 4294967295000, more than 32 bits hold. -/
theorem accepted_sample_state_witness :
    (3 : Nat) < 4
    ∧ (updateSample fixedOps 5 1 SDL_SENSOR_GYRO ⟨3, 4294967280, 5000⟩
        ⟨⟨0, 0, 0⟩, ⟨0, 0, 0⟩, 16, 4⟩).1 = ⟨4, 16, 37000⟩
    ∧ (updateSample fixedOps 5 1 SDL_SENSOR_GYRO ⟨0, 0, 0⟩
        ⟨⟨0, 0, 0⟩, ⟨0, 0, 0⟩, 4294967295, 1⟩).1 = ⟨1, 4294967295, 4294967295000⟩ :=
  ⟨by decide,
   (accepted_sample_state fixedOps 5 1 SDL_SENSOR_GYRO ⟨3, 4294967280, 5000⟩
      ⟨⟨0, 0, 0⟩, ⟨0, 0, 0⟩, 16, 4⟩ (by decide)).1,
   (accepted_sample_state fixedOps 5 1 SDL_SENSOR_GYRO ⟨0, 0, 0⟩
      ⟨⟨0, 0, 0⟩, ⟨0, 0, 0⟩, 4294967295, 1⟩ (by decide)).1⟩

/-- Claim C13: in an update call on an open sensor whose poll succeeds, cut the examined
entries at any entry `s`. The events of the call are those of the entries before `s`,
of `s` and of the entries after `s`, in this order; every one of them carries the
wall-clock value read at the start of the call as its emission timestamp; and an event
sent for `s` carries as its sensor timestamp the value of `sensor_timestamp` right after
`s` was accumulated. -/
theorem event_timestamps {F : Type} (fo : FloatOps F) (c : UpdateCall F)
    (sensor : SDL_Sensor) (hw : sensor_hwdata) (hopen : sensor.hwdata = some hw)
    (herr : c.poll.err = 0)
    (pre : List (Nat × SceMotionSensorState F)) (s : Nat × SceMotionSensorState F)
    (post : List (Nat × SceMotionSensorState F))
    (hsplit : examined fo c = pre ++ s :: post) :
    (SDL_VITA_SensorUpdate fo c.timestamp c.poll sensor).map (fun r => r.2)
      = some (eventsAfter fo sensor hw pre
          ++ (sampleResult fo sensor (stateAfter fo sensor hw pre) s).2
          ++ eventsAfter fo sensor
              (sampleResult fo sensor (stateAfter fo sensor hw pre) s).1 post)
    ∧ (∀ e ∈ eventsAfter fo sensor hw pre
          ++ (sampleResult fo sensor (stateAfter fo sensor hw pre) s).2
          ++ eventsAfter fo sensor
              (sampleResult fo sensor (stateAfter fo sensor hw pre) s).1 post,
        e.timestamp = c.timestamp)
    ∧ (∀ e ∈ (sampleResult fo sensor (stateAfter fo sensor hw pre) s).2,
        e.sensor_timestamp
          = (sampleResult fo sensor (stateAfter fo sensor hw pre) s).1.sensor_timestamp) := by
  have hproc : processed fo [c] = pre ++ s :: post := by
    simp [processed, herr, hsplit]
  have hrun := runUpdates_split fo sensor hw hopen [c] pre s post hproc
  have hupd := update_open fo c sensor hw hopen herr
  refine ⟨?_, ?_, ?_⟩
  · rw [runUpdates, hupd] at hrun
    simp only [runUpdates, List.append_nil, Option.some.injEq, Prod.mk.injEq] at hrun
    rw [hupd, Option.map_some', hrun.2]
  · intro e he
    have hall : ∀ q ∈ examined fo c, q.1 = c.timestamp := by
      intro q hq
      rw [examined_eq_map, List.mem_map] at hq
      obtain ⟨m, _, rfl⟩ := hq
      rfl
    have hev : eventsAfter fo sensor hw pre
          ++ (sampleResult fo sensor (stateAfter fo sensor hw pre) s).2
          ++ eventsAfter fo sensor
              (sampleResult fo sensor (stateAfter fo sensor hw pre) s).1 post
        = (runSamples fo sensor.instance_id sensor.type (hw, []) (examined fo c)).2 := by
      rw [runUpdates, hupd] at hrun
      simp only [runUpdates, List.append_nil, Option.some.injEq, Prod.mk.injEq] at hrun
      exact hrun.2.symm
    rw [hev] at he
    rcases runSamples_events_timestamp fo sensor.instance_id sensor.type c.timestamp
      (examined fo c) (hw, []) hall e he with h | h
    · simp at h
    · exact h
  · intro e he
    exact (updateSample_event_fields fo s.1 sensor.instance_id sensor.type _ s.2 e he).2.2
/-- Claim C13 at a concrete input: one call at wall-clock 5 delivers the counters 1 and 3
with ticks 7 and 9. Both events carry 5; the first carries the sensor timestamp 7000,
the value right after its own sample, while the value at the end of the call is 9000. -/
theorem event_timestamps_witness :
    examined fixedOps
        ⟨5, ⟨0, [⟨⟨100000, 0, 0⟩, ⟨1, 2, 3⟩, 7, 1⟩, ⟨⟨0, 100000, 0⟩, ⟨4, 5, 6⟩, 9, 3⟩]⟩⟩
      = [] ++ (5, ⟨⟨100000, 0, 0⟩, ⟨1, 2, 3⟩, 7, 1⟩)
          :: ((5, ⟨⟨0, 100000, 0⟩, ⟨4, 5, 6⟩, 9, 3⟩)
              :: List.replicate 62 (5, zeroState fixedOps))
    ∧ (SDL_VITA_SensorUpdate fixedOps 5
          ⟨0, [⟨⟨100000, 0, 0⟩, ⟨1, 2, 3⟩, 7, 1⟩, ⟨⟨0, 100000, 0⟩, ⟨4, 5, 6⟩, 9, 3⟩]⟩
          ⟨1, SDL_SENSOR_ACCEL, some ⟨0, 0, 0⟩⟩).map (fun r => r.2)
        = some [⟨5, 1, 7000, [980665, 0, 0]⟩, ⟨5, 1, 9000, [0, 980665, 0]⟩]
    ∧ (SDL_VITA_SensorUpdate fixedOps 5
          ⟨0, [⟨⟨100000, 0, 0⟩, ⟨1, 2, 3⟩, 7, 1⟩, ⟨⟨0, 100000, 0⟩, ⟨4, 5, 6⟩, 9, 3⟩]⟩
          ⟨1, SDL_SENSOR_ACCEL, some ⟨0, 0, 0⟩⟩).map (fun r => r.1.hwdata)
        = some (some ⟨3, 9, 9000⟩) :=
  ⟨by decide,
   (event_timestamps fixedOps
      ⟨5, ⟨0, [⟨⟨100000, 0, 0⟩, ⟨1, 2, 3⟩, 7, 1⟩, ⟨⟨0, 100000, 0⟩, ⟨4, 5, 6⟩, 9, 3⟩]⟩⟩
      ⟨1, SDL_SENSOR_ACCEL, some ⟨0, 0, 0⟩⟩ ⟨0, 0, 0⟩ rfl rfl
      [] (5, ⟨⟨100000, 0, 0⟩, ⟨1, 2, 3⟩, 7, 1⟩)
      ((5, ⟨⟨0, 100000, 0⟩, ⟨4, 5, 6⟩, 9, 3⟩) :: List.replicate 62 (5, zeroState fixedOps))
      (by decide)).1,
   by decide⟩

/-- Claim C14: an update call on the `i`-th sensor changes that sensor only: the driver
statics (descriptor table and sensor count) and every other sensor object, with its
runtime state, are as before. Consequently, for two different sensors `i` and `j`,
updating `i` and then `j` gives the same world and the same events per sensor as
updating `j` and then `i`: each sensor ends as `SDL_VITA_SensorUpdate` alone leaves it,
accepting samples according to its own stored counter. -/
theorem update_touches_only_its_sensor {F : Type} (fo : FloatOps F) (ti tj : Nat)
    (pi pj : MotionPoll F) (w : World) (i j : Nat) (hij : i ≠ j)
    (si sj : SDL_Sensor) (hi : w.sensors.get? i = some si) (hj : w.sensors.get? j = some sj)
    (ri rj : SDL_Sensor × List (SensorEvent F))
    (hri : SDL_VITA_SensorUpdate fo ti pi si = some ri)
    (hrj : SDL_VITA_SensorUpdate fo tj pj sj = some rj) :
    updateSensor fo ti pi w i = some (⟨w.driver, w.sensors.set i ri.1⟩, ri.2)
    ∧ (∀ k, k ≠ i → (w.sensors.set i ri.1).get? k = w.sensors.get? k)
    ∧ (updateSensor fo ti pi w i).bind
        (fun a => (updateSensor fo tj pj a.1 j).map (fun b => (b.1, a.2, b.2)))
      = some (⟨w.driver, (w.sensors.set i ri.1).set j rj.1⟩, ri.2, rj.2)
    ∧ (updateSensor fo tj pj w j).bind
        (fun b => (updateSensor fo ti pi b.1 i).map (fun a => (a.1, a.2, b.2)))
      = some (⟨w.driver, (w.sensors.set i ri.1).set j rj.1⟩, ri.2, rj.2) := by
  have h1 := updateSensor_eq fo ti pi w i si ri hi hri
  have h2 := updateSensor_eq fo tj pj w j sj rj hj hrj
  refine ⟨h1, ?_, ?_, ?_⟩
  · intro k hk
    simp [List.getElem?_set_ne (Ne.symm hk)]
  · rw [h1, Option.some_bind]
    have hj2 : (⟨w.driver, w.sensors.set i ri.1⟩ : World).sensors.get? j = some sj := by
      simp [List.getElem?_set_ne hij]
      simpa using hj
    rw [updateSensor_eq fo tj pj _ j sj rj hj2 hrj]
    rfl
  · rw [h2, Option.some_bind]
    have hi2 : (⟨w.driver, w.sensors.set j rj.1⟩ : World).sensors.get? i = some si := by
      simp [List.getElem?_set_ne (Ne.symm hij)]
      simpa using hi
    rw [updateSensor_eq fo ti pi _ i si ri hi2 hri]
    simp only [Option.map_some']
    rw [List.set_comm _ _ _ (Ne.symm hij)]
/-- Claim C14 at a concrete input: an accelerometer with stored counter 0 and a gyroscope
with stored counter 5 are polled with the same buffer holding counter 3. In either order
the accelerometer accepts the sample and the gyroscope does not; the statics stay. -/
theorem update_touches_only_its_sensor_witness :
    (updateSensor fixedOps 10 ⟨0, [⟨⟨100000, 0, 0⟩, ⟨1, 2, 3⟩, 7, 3⟩]⟩
        ⟨⟨some [⟨SDL_SENSOR_ACCEL, 1⟩, ⟨SDL_SENSOR_GYRO, 2⟩], 2⟩,
          [⟨1, SDL_SENSOR_ACCEL, some ⟨0, 0, 0⟩⟩, ⟨2, SDL_SENSOR_GYRO, some ⟨5, 0, 0⟩⟩]⟩ 0).bind
        (fun a => (updateSensor fixedOps 20 ⟨0, [⟨⟨100000, 0, 0⟩, ⟨1, 2, 3⟩, 7, 3⟩]⟩ a.1 1).map
          (fun b => (b.1, a.2, b.2)))
      = some (⟨⟨some [⟨SDL_SENSOR_ACCEL, 1⟩, ⟨SDL_SENSOR_GYRO, 2⟩], 2⟩,
                [⟨1, SDL_SENSOR_ACCEL, some ⟨3, 7, 7000⟩⟩,
                 ⟨2, SDL_SENSOR_GYRO, some ⟨5, 0, 0⟩⟩]⟩,
              [⟨10, 1, 7000, [980665, 0, 0]⟩], [])
    ∧ (updateSensor fixedOps 20 ⟨0, [⟨⟨100000, 0, 0⟩, ⟨1, 2, 3⟩, 7, 3⟩]⟩
        ⟨⟨some [⟨SDL_SENSOR_ACCEL, 1⟩, ⟨SDL_SENSOR_GYRO, 2⟩], 2⟩,
          [⟨1, SDL_SENSOR_ACCEL, some ⟨0, 0, 0⟩⟩, ⟨2, SDL_SENSOR_GYRO, some ⟨5, 0, 0⟩⟩]⟩ 1).bind
        (fun b => (updateSensor fixedOps 10 ⟨0, [⟨⟨100000, 0, 0⟩, ⟨1, 2, 3⟩, 7, 3⟩]⟩ b.1 0).map
          (fun a => (a.1, a.2, b.2)))
      = some (⟨⟨some [⟨SDL_SENSOR_ACCEL, 1⟩, ⟨SDL_SENSOR_GYRO, 2⟩], 2⟩,
                [⟨1, SDL_SENSOR_ACCEL, some ⟨3, 7, 7000⟩⟩,
                 ⟨2, SDL_SENSOR_GYRO, some ⟨5, 0, 0⟩⟩]⟩,
              [⟨10, 1, 7000, [980665, 0, 0]⟩], []) :=
  ⟨(update_touches_only_its_sensor fixedOps 10 20
      ⟨0, [⟨⟨100000, 0, 0⟩, ⟨1, 2, 3⟩, 7, 3⟩]⟩ ⟨0, [⟨⟨100000, 0, 0⟩, ⟨1, 2, 3⟩, 7, 3⟩]⟩
      ⟨⟨some [⟨SDL_SENSOR_ACCEL, 1⟩, ⟨SDL_SENSOR_GYRO, 2⟩], 2⟩,
        [⟨1, SDL_SENSOR_ACCEL, some ⟨0, 0, 0⟩⟩, ⟨2, SDL_SENSOR_GYRO, some ⟨5, 0, 0⟩⟩]⟩
      0 1 (by decide)
      ⟨1, SDL_SENSOR_ACCEL, some ⟨0, 0, 0⟩⟩ ⟨2, SDL_SENSOR_GYRO, some ⟨5, 0, 0⟩⟩ rfl rfl
      (⟨1, SDL_SENSOR_ACCEL, some ⟨3, 7, 7000⟩⟩, [⟨10, 1, 7000, [980665, 0, 0]⟩])
      (⟨2, SDL_SENSOR_GYRO, some ⟨5, 0, 0⟩⟩, [])
      (by decide) (by decide)).2.2.1,
   (update_touches_only_its_sensor fixedOps 10 20
      ⟨0, [⟨⟨100000, 0, 0⟩, ⟨1, 2, 3⟩, 7, 3⟩]⟩ ⟨0, [⟨⟨100000, 0, 0⟩, ⟨1, 2, 3⟩, 7, 3⟩]⟩
      ⟨⟨some [⟨SDL_SENSOR_ACCEL, 1⟩, ⟨SDL_SENSOR_GYRO, 2⟩], 2⟩,
        [⟨1, SDL_SENSOR_ACCEL, some ⟨0, 0, 0⟩⟩, ⟨2, SDL_SENSOR_GYRO, some ⟨5, 0, 0⟩⟩]⟩
      0 1 (by decide)
      ⟨1, SDL_SENSOR_ACCEL, some ⟨0, 0, 0⟩⟩ ⟨2, SDL_SENSOR_GYRO, some ⟨5, 0, 0⟩⟩ rfl rfl
      (⟨1, SDL_SENSOR_ACCEL, some ⟨3, 7, 7000⟩⟩, [⟨10, 1, 7000, [980665, 0, 0]⟩])
      (⟨2, SDL_SENSOR_GYRO, some ⟨5, 0, 0⟩⟩, [])
      (by decide) (by decide)).2.2.2⟩

/-- Claim C15, refuted as stated: an update call whose poll reports the status -1 returns
without examining any buffer entry, not 64 of them. -/
theorem failed_poll_examines_no_entry :
    SDL_VITA_SensorUpdate fixedOps 5 ⟨-1, [⟨⟨100000, 0, 0⟩, ⟨1, 2, 3⟩, 7, 9⟩]⟩
        ⟨1, SDL_SENSOR_ACCEL, some ⟨3, 4, 5000⟩⟩
      = some (⟨1, SDL_SENSOR_ACCEL, some ⟨3, 4, 5000⟩⟩, [])
    ∧ (processed fixedOps [⟨5, ⟨-1, [⟨⟨100000, 0, 0⟩, ⟨1, 2, 3⟩, 7, 9⟩]⟩⟩]).length = 0
    ∧ (0 : Nat) ≠ SCE_MOTION_MAX_NUM_STATES := by
  decide
/-- Claim C15, amended: every update call on an open sensor terminates with a result. A
call whose poll reports a non-zero status examines no buffer entry; a call whose poll
succeeds examines exactly the `SCE_MOTION_MAX_NUM_STATES = 64` buffer entries, in
increasing index order. The events are those of the examined entries in that order, and
there are at most 64 of them per call. -/
theorem update_examines_bounded {F : Type} (fo : FloatOps F) (c : UpdateCall F)
    (sensor : SDL_Sensor) (hw : sensor_hwdata) (hopen : sensor.hwdata = some hw) :
    SDL_VITA_SensorUpdate fo c.timestamp c.poll sensor
      = some (⟨sensor.instance_id, sensor.type,
                some (stateAfter fo sensor hw (processed fo [c]))⟩,
              eventsAfter fo sensor hw (processed fo [c]))
    ∧ processed fo [c]
      = (if c.poll.err ≠ 0 then []
         else (motionBuffer fo c.poll).map (fun m => (c.timestamp, m)))
    ∧ (motionBuffer fo c.poll).length = SCE_MOTION_MAX_NUM_STATES
    ∧ (processed fo [c]).length = (if c.poll.err ≠ 0 then 0 else SCE_MOTION_MAX_NUM_STATES)
    ∧ (eventsAfter fo sensor hw (processed fo [c])).length ≤ SCE_MOTION_MAX_NUM_STATES
    ∧ SCE_MOTION_MAX_NUM_STATES = 64 := by
  have hrun := runUpdates_open fo [c] sensor hw hopen
  have hproc : processed fo [c]
      = (if c.poll.err ≠ 0 then []
         else (motionBuffer fo c.poll).map (fun m => (c.timestamp, m))) := by
    simp only [processed, List.append_nil, examined_eq_map]
  have hlen : (processed fo [c]).length
      = (if c.poll.err ≠ 0 then 0 else SCE_MOTION_MAX_NUM_STATES) := by
    rw [hproc]
    split
    · rfl
    · rw [List.length_map, motionBuffer_length]
  refine ⟨?_, hproc, motionBuffer_length fo c.poll, hlen, ?_, rfl⟩
  · rw [runUpdates] at hrun
    cases hu : SDL_VITA_SensorUpdate fo c.timestamp c.poll sensor with
    | none => rw [hu] at hrun; simp at hrun
    | some r =>
      rw [hu] at hrun
      obtain ⟨s1, e1⟩ := r
      simp only [runUpdates, List.append_nil, Option.some.injEq, Prod.mk.injEq] at hrun
      simp only [stateAfter, eventsAfter, Option.some.injEq, Prod.mk.injEq]
      exact hrun
  · have h := runSamples_events_length fo sensor.instance_id sensor.type (processed fo [c])
      (hw, [])
    simp only [eventsAfter]
    simp only [List.length_nil] at h
    split at hlen <;> omega

/-- Claim C15, amended, at a concrete input: a successful poll with one fresh sample; 64
entries are examined and one event is sent. -/
theorem update_examines_bounded_witness :
    SDL_VITA_SensorUpdate fixedOps 5 ⟨0, [⟨⟨100000, 0, 0⟩, ⟨1, 2, 3⟩, 7, 1⟩]⟩
        ⟨1, SDL_SENSOR_ACCEL, some ⟨0, 0, 0⟩⟩
      = some (⟨1, SDL_SENSOR_ACCEL, some ⟨1, 7, 7000⟩⟩, [⟨5, 1, 7000, [980665, 0, 0]⟩])
    ∧ (processed fixedOps [⟨5, ⟨0, [⟨⟨100000, 0, 0⟩, ⟨1, 2, 3⟩, 7, 1⟩]⟩⟩]).length = 64 :=
  ⟨(update_examines_bounded fixedOps ⟨5, ⟨0, [⟨⟨100000, 0, 0⟩, ⟨1, 2, 3⟩, 7, 1⟩]⟩⟩
      ⟨1, SDL_SENSOR_ACCEL, some ⟨0, 0, 0⟩⟩ ⟨0, 0, 0⟩ rfl).1,
   (update_examines_bounded fixedOps ⟨5, ⟨0, [⟨⟨100000, 0, 0⟩, ⟨1, 2, 3⟩, 7, 1⟩]⟩⟩
      ⟨1, SDL_SENSOR_ACCEL, some ⟨0, 0, 0⟩⟩ ⟨0, 0, 0⟩ rfl).2.2.2.1⟩

/-- Claim C16: for a sensor opened with all-zero runtime state and any sequence of
successful or failed update calls whose raw ticks are unsigned 32-bit values and during
which the 64-bit accumulator does not wrap, the runtime state after every processed
sample satisfies: `sensor_timestamp` is a multiple of 1000 and `sensor_timestamp / 1000`
modulo `2^32` equals `last_tick`; and after the first accepted sample `sensor_timestamp`
is 1000 times that sample's raw tick. -/
theorem timestamp_tracks_last_tick {F : Type} (fo : FloatOps F) (sensor : SDL_Sensor)
    (hopen : sensor.hwdata = some ⟨0, 0, 0⟩) (calls : List (UpdateCall F))
    (hticks : ∀ s ∈ processed fo calls, s.2.timestamp < 2 ^ 32)
    (hfits : accumulatorFits fo sensor ⟨0, 0, 0⟩ (processed fo calls) = true) :
    (runUpdates fo sensor calls).map (fun r => r.1.hwdata)
      = some (some (stateAfter fo sensor ⟨0, 0, 0⟩ (processed fo calls)))
    ∧ (∀ pre rest, processed fo calls = pre ++ rest →
        (stateAfter fo sensor ⟨0, 0, 0⟩ pre).sensor_timestamp % 1000 = 0
        ∧ ((stateAfter fo sensor ⟨0, 0, 0⟩ pre).sensor_timestamp / 1000) % 2 ^ 32
            = (stateAfter fo sensor ⟨0, 0, 0⟩ pre).last_tick)
    ∧ (∀ pre s post, processed fo calls = pre ++ s :: post →
        acceptedSamples fo sensor ⟨0, 0, 0⟩ pre = [] →
        (stateAfter fo sensor ⟨0, 0, 0⟩ pre).counter < s.2.counter →
        (sampleResult fo sensor (stateAfter fo sensor ⟨0, 0, 0⟩ pre) s).1.sensor_timestamp
          = 1000 * s.2.timestamp) := by
  refine ⟨?_, ?_, ?_⟩
  · rw [runUpdates_open fo calls sensor _ hopen]
    rfl
  · intro pre rest hsplit
    rw [hsplit] at hticks hfits
    exact stateAfter_tick_invariant fo sensor pre ⟨0, 0, 0⟩ rest (by norm_num) hticks hfits
  · intro pre s post hsplit hnone hacc
    have htick : s.2.timestamp < 2 ^ 32 := hticks s (by rw [hsplit]; simp)
    rw [stateAfter_none_accepted fo sensor pre _ hnone] at hacc ⊢
    simp only [sampleResult]
    rw [updateSample_accepted fo s.1 sensor.instance_id sensor.type _ s.2 hacc]
    simp only []
    rw [SDL_US_TO_NS_delta]
    have hd : delta 0 s.2.timestamp = s.2.timestamp := by
      rw [two_pow_32] at htick
      unfold delta add32 sub32 SDL_MAX_UINT32
      rw [two_pow_32]
      split <;> omega
    rw [hd, two_pow_64]
    rw [two_pow_32] at htick
    omega
/-- Claim C16 at a concrete input: a successful call delivering tick 7, a failed call, and
a successful call delivering the wrapped tick 3; the state ends as
(2, 3, 1000 * (2^32 + 3)). -/
theorem timestamp_tracks_last_tick_witness :
    (runUpdates fixedOps ⟨1, SDL_SENSOR_GYRO, some ⟨0, 0, 0⟩⟩
        [⟨5, ⟨0, [⟨⟨0, 0, 0⟩, ⟨1, 2, 3⟩, 7, 1⟩]⟩⟩, ⟨6, ⟨-1, []⟩⟩,
         ⟨7, ⟨0, [⟨⟨0, 0, 0⟩, ⟨1, 2, 3⟩, 3, 2⟩]⟩⟩]).map (fun r => r.1.hwdata)
      = some (some ⟨2, 3, 4294967299000⟩)
    ∧ (4294967299000 : Nat) % 1000 = 0 ∧ ((4294967299000 : Nat) / 1000) % 2 ^ 32 = 3 :=
  ⟨(timestamp_tracks_last_tick fixedOps ⟨1, SDL_SENSOR_GYRO, some ⟨0, 0, 0⟩⟩ rfl
      [⟨5, ⟨0, [⟨⟨0, 0, 0⟩, ⟨1, 2, 3⟩, 7, 1⟩]⟩⟩, ⟨6, ⟨-1, []⟩⟩,
       ⟨7, ⟨0, [⟨⟨0, 0, 0⟩, ⟨1, 2, 3⟩, 3, 2⟩]⟩⟩]
      (by decide) (by decide)).1,
   by norm_num, by norm_num⟩

/-- Claim C17: for every runtime state and every sample buffer, after an update call whose
poll succeeds the stored counter is the maximum of the counter stored before the call
and the counters of the 64 buffer entries, so it does not decrease; and the counters of
the samples accepted during the call increase strictly in processing order. -/
theorem counter_is_running_maximum {F : Type} (fo : FloatOps F) (timestamp : Nat)
    (p : MotionPoll F) (sensor : SDL_Sensor) (hw : sensor_hwdata)
    (hopen : sensor.hwdata = some hw) (herr : p.err = 0) :
    SDL_VITA_SensorUpdate fo timestamp p sensor
      = some (⟨sensor.instance_id, sensor.type,
                some (stateAfter fo sensor hw (examined fo ⟨timestamp, p⟩))⟩,
              eventsAfter fo sensor hw (examined fo ⟨timestamp, p⟩))
    ∧ (motionBuffer fo p).length = 64
    ∧ (stateAfter fo sensor hw (examined fo ⟨timestamp, p⟩)).counter
        = (motionBuffer fo p).foldl (fun a m => max a m.counter) hw.counter
    ∧ hw.counter ≤ (stateAfter fo sensor hw (examined fo ⟨timestamp, p⟩)).counter
    ∧ List.Pairwise (fun a b => a < b)
        ((acceptedSamples fo sensor hw (examined fo ⟨timestamp, p⟩)).map
          (fun s => s.2.counter)) := by
  have hmax : (stateAfter fo sensor hw (examined fo ⟨timestamp, p⟩)).counter
        = (motionBuffer fo p).foldl (fun a m => max a m.counter) hw.counter := by
    rw [stateAfter_counter, examined_eq_map, List.foldl_map]
  refine ⟨update_open fo ⟨timestamp, p⟩ sensor hw hopen herr, motionBuffer_length fo p,
    hmax, ?_, acceptedSamples_increasing fo sensor _ hw⟩
  rw [hmax]
  exact foldl_max_ge (fun m : SceMotionSensorState F => m.counter) _ _
/-- Claim C17 at a concrete input: stored counter 2, buffer counters 4, 3, 9, then zeros;
the stored counter becomes 9 and the accepted counters are 4 and 9. -/
theorem counter_is_running_maximum_witness :
    (stateAfter fixedOps ⟨1, SDL_SENSOR_GYRO, some ⟨2, 0, 0⟩⟩ ⟨2, 0, 0⟩
        (examined fixedOps ⟨5, ⟨0, [⟨⟨0, 0, 0⟩, ⟨1, 2, 3⟩, 7, 4⟩, ⟨⟨0, 0, 0⟩, ⟨1, 2, 3⟩, 6, 3⟩,
          ⟨⟨0, 0, 0⟩, ⟨1, 2, 3⟩, 8, 9⟩]⟩⟩)).counter = 9
    ∧ (acceptedSamples fixedOps ⟨1, SDL_SENSOR_GYRO, some ⟨2, 0, 0⟩⟩ ⟨2, 0, 0⟩
        (examined fixedOps ⟨5, ⟨0, [⟨⟨0, 0, 0⟩, ⟨1, 2, 3⟩, 7, 4⟩, ⟨⟨0, 0, 0⟩, ⟨1, 2, 3⟩, 6, 3⟩,
          ⟨⟨0, 0, 0⟩, ⟨1, 2, 3⟩, 8, 9⟩]⟩⟩)).map (fun s => s.2.counter) = [4, 9] :=
  ⟨(counter_is_running_maximum fixedOps 5
      ⟨0, [⟨⟨0, 0, 0⟩, ⟨1, 2, 3⟩, 7, 4⟩, ⟨⟨0, 0, 0⟩, ⟨1, 2, 3⟩, 6, 3⟩,
        ⟨⟨0, 0, 0⟩, ⟨1, 2, 3⟩, 8, 9⟩]⟩
      ⟨1, SDL_SENSOR_GYRO, some ⟨2, 0, 0⟩⟩ ⟨2, 0, 0⟩ rfl rfl).2.2.1,
   by decide⟩

/-- Claim C18, the code at the failing input: after a successful init the count is 2, and
each of the four lookups called with `device_index = -1` passes the only bound check
`device_index < SDL_sensors_count` and reads position -1 of the two-entry descriptor
table, outside the table, instead of returning its failure value. -/
theorem negative_index_reads_outside_table :
    (SDL_VITA_SensorInit ⟨0, 0, 0, 0, 0⟩ true 0 Driver.initial).1 = true
    ∧ SDL_VITA_SensorGetCount
        (SDL_VITA_SensorInit ⟨0, 0, 0, 0, 0⟩ true 0 Driver.initial).2.1 = 2
    ∧ SDL_VITA_SensorGetDeviceName
        (SDL_VITA_SensorInit ⟨0, 0, 0, 0, 0⟩ true 0 Driver.initial).2.1 (-1) = ⟨[-1], none⟩
    ∧ SDL_VITA_SensorGetDeviceType
        (SDL_VITA_SensorInit ⟨0, 0, 0, 0, 0⟩ true 0 Driver.initial).2.1 (-1) = ⟨[-1], none⟩
    ∧ SDL_VITA_SensorGetDeviceNonPortableType (fun _ => 0)
        (SDL_VITA_SensorInit ⟨0, 0, 0, 0, 0⟩ true 0 Driver.initial).2.1 (-1) = ⟨[-1], none⟩
    ∧ SDL_VITA_SensorGetDeviceInstanceID
        (SDL_VITA_SensorInit ⟨0, 0, 0, 0, 0⟩ true 0 Driver.initial).2.1 (-1)
        = ⟨[-1], none⟩ := by
  decide

end VitaSensor
